import Mathlib

/-!
# CrossChain-Router: canonical encoder, bridge dispatcher, Near build, sign and verify

A shallow embedding of

* `tokens/near/serialize/serialize.go` (the canonical encoder),
* `router/bridge/new.go` (the chain-id dispatcher),
* `tokens/near/verifytx.go` (the verification of a swap-out transaction),
* `tokens/near/buildtx.go` (the construction of the swap-in transaction),
* `tokens/near/tools/functionCall/main.go` (`MPCSignTransaction`),

followed by the theorems about them.

Conventions. A Go byte is a natural number below 256, a `[]byte` is a list of
bytes, a `uintN` is a natural number below `2^N` and a conversion `uintN(x)` is
written `x % 2^N`.  In the encoder a Go `string` is the list of its bytes
(`len` of a Go string is its byte length); in the Near code, which splits and
compares text, a Go `string` holding UTF-8 text is a `String`.  A Go
`(value, error)` result is an `Except`, a Go `error` result is an `Option`
with `none` for nil.  Code of other packages and of libraries that is not
among the sources is a parameter (`bridge.Packages`, `router.Lookups`,
`params.Settings`, `near.Libraries`).
-/

deriving instance DecidableEq for Except

namespace serialize

/-- A byte of a Go `[]byte` or `string`. -/
abbrev Byte := Nat

/-- The errors the encoder can return. -/
inductive Error where
  /-- Go: `errors.New("string is null")` -/
  | stringIsNull
  /-- Go: `fmt.Errorf("publickey length is not equal 32,length=%d", n)` -/
  | publicKeyLength (n : Nat)
  /-- Go: `fmt.Errorf("signature length is not equal 64,length=%d", n)` -/
  | signatureLength (n : Nat)
  /-- Go: `fmt.Errorf("blockhash length is not equal 32,length=%d", n)` -/
  | blockHashLength (n : Nat)
  /-- the error of `utils.BigIntToUintBytes` -/
  | bigIntDoesNotFit
  /-- the error of `decimal.NewFromString` -/
  | decimalParse
  deriving DecidableEq

/-! ## The action discriminants (`const ( ... = iota ...)`) -/

def CreateAccountAction : Nat := 0
def DeployContractAction : Nat := 1
def FunctionCallAction : Nat := 2
def TransferAction : Nat := 3
def StakeAction : Nat := 4
def AddKey : Nat := 5
def DeleteKey : Nat := 6
def DeleteAccount : Nat := 7

/-! ## `encoding/binary`: `LittleEndian.PutUint32`, `LittleEndian.PutUint64` -/

/-- The four bytes `binary.LittleEndian.PutUint32` writes:
`b[0] = byte(v)`, `b[1] = byte(v >> 8)`, `b[2] = byte(v >> 16)`, `b[3] = byte(v >> 24)`. -/
def PutUint32 (v : Nat) : List Byte :=
  [v % 256, (v >>> 8) % 256, (v >>> 16) % 256, (v >>> 24) % 256]

/-- The eight bytes `binary.LittleEndian.PutUint64` writes. -/
def PutUint64 (v : Nat) : List Byte :=
  [v % 256, (v >>> 8) % 256, (v >>> 16) % 256, (v >>> 24) % 256,
   (v >>> 32) % 256, (v >>> 40) % 256, (v >>> 48) % 256, (v >>> 56) % 256]

/-- The number a little-endian byte list stands for: the sum of `byte[i] * 256^i`. -/
def leValue : List Byte → Nat
  | [] => 0
  | b :: bs => b + 256 * leValue bs

/-- The little-endian encoding of a number in `width` bytes, in the words of the
spec: byte `i` holds `(n / 256^i) mod 256`. -/
def littleEndian (width n : Nat) : List Byte :=
  (List.range width).map fun i => n / 256 ^ i % 256

/-! ## Primitive encoders -/

/-- Go: `type U8 struct { Value uint8 }` -/
structure U8 where
  Value : Nat
  deriving DecidableEq

/-- Go: `func (u *U8) Serialize() ([]byte, error)` -/
def U8.Serialize (u : U8) : Except Error (List Byte) :=
  .ok [u.Value]

/-- Go: `type U32 struct { Value uint32 }` -/
structure U32 where
  Value : Nat
  deriving DecidableEq

/-- Go: `func (u *U32) Serialize() ([]byte, error)` -/
def U32.Serialize (u : U32) : Except Error (List Byte) :=
  .ok (PutUint32 u.Value)

/-- Go: `type U64 struct { Value uint64 }` -/
structure U64 where
  Value : Nat
  deriving DecidableEq

/-- Go: `func (u *U64) Serialize() ([]byte, error)` -/
def U64.Serialize (u : U64) : Except Error (List Byte) :=
  .ok (PutUint64 u.Value)

/-- Go: `type String struct { Value string }`; the value is the string's bytes. -/
structure String where
  Value : List Byte
  deriving DecidableEq

/-- Go: `func (s *String) Serialize() ([]byte, error)` -/
def String.Serialize (s : String) : Except Error (List Byte) :=
  if s.Value = [] then
    .error .stringIsNull
  else
    let length := s.Value.length
    let uL : U32 := { Value := length % 2 ^ 32 }
    match uL.Serialize with
    | .error err => .error err
    | .ok data => .ok (data ++ s.Value)

/-- Go: `type PublicKey struct { KeyType uint8; Value []byte }` -/
structure PublicKey where
  KeyType : Nat
  Value : List Byte
  deriving DecidableEq

/-- Go: `func (s *PublicKey) Serialize() ([]byte, error)` -/
def PublicKey.Serialize (s : PublicKey) : Except Error (List Byte) :=
  let data := [s.KeyType]
  if s.Value.length ≠ 32 then
    .error (.publicKeyLength s.Value.length)
  else
    .ok (data ++ s.Value)

/-- Go: `type Signature struct { KeyType uint8; Value []byte }` -/
structure Signature where
  KeyType : Nat
  Value : List Byte
  deriving DecidableEq

/-- Go: `func (s *Signature) Serialize() ([]byte, error)` -/
def Signature.Serialize (s : Signature) : Except Error (List Byte) :=
  let data := [s.KeyType]
  if s.Value.length ≠ 64 then
    .error (.signatureLength s.Value.length)
  else
    .ok (data ++ s.Value)

/-- Go: `type BlockHash struct { Value []byte }` -/
structure BlockHash where
  Value : List Byte
  deriving DecidableEq

/-- Go: `func (s *BlockHash) Serialize() ([]byte, error)` -/
def BlockHash.Serialize (s : BlockHash) : Except Error (List Byte) :=
  if s.Value.length ≠ 32 then
    .error (.blockHashLength s.Value.length)
  else
    .ok s.Value

/-- Go: `type U128 struct { Value *big.Int }` -/
structure U128 where
  Value : Int
  deriving DecidableEq

end serialize

namespace utils

open serialize

/-- The minimal big-endian bytes of a natural number, most significant first and
empty for zero (what `(*big.Int).Bytes` returns for the absolute value); the
first argument bounds the number of bytes produced. -/
def natBytes : Nat → Nat → List Byte
  | 0, _ => []
  | fuel + 1, n => if n = 0 then [] else natBytes fuel (n / 256) ++ [n % 256]

/-- Modelled from the spec: `utils.BigIntToUintBytes` (package
`tokens/near/utils`) is not among the sources.  The spec describes its result
as the minimal big-integer representation of an unsigned value in exactly
`bytelen` bytes, big-endian, failing if the value does not fit in `bytelen`
bytes.  The spec speaks of unsigned values only; a negative value is taken not
to fit. -/
def BigIntToUintBytes (i : Int) (bytelen : Nat) : Except Error (List Byte) :=
  if i < 0 then
    .error .bigIntDoesNotFit
  else
    let bs := natBytes i.toNat i.toNat
    if bytelen < bs.length then
      .error .bigIntDoesNotFit
    else
      .ok (List.replicate (bytelen - bs.length) 0 ++ bs)

/-- Modelled from the spec: `utils.Reverse` (package `tokens/near/utils`) is not
among the sources.  The spec has the big-endian bytes reversed to little-endian;
the in-place reversal of the slice is the reversed list. -/
def Reverse (data : List Byte) : List Byte :=
  data.reverse

end utils

namespace serialize

/-- Go: `func (u *U128) Serialize() ([]byte, error)` -/
def U128.Serialize (u : U128) : Except Error (List Byte) :=
  match utils.BigIntToUintBytes u.Value 16 with
  | .error err => .error err
  | .ok data => .ok (utils.Reverse data)

/-- Go: `type FunctionCall struct { Action uint8; MethodName String; Args []byte; Gas U64; Deposit String }` -/
structure FunctionCall where
  Action : Nat
  MethodName : String
  Args : List Byte
  Gas : U64
  Deposit : String
  deriving DecidableEq

/-- Go: `func CreateFuncCall(method string, args []byte, gas uint64, deposit string) (*FunctionCall, error)`;
the error it returns is always nil. -/
def CreateFuncCall (method : List Byte) (args : List Byte) (gas : Nat) (deposit : List Byte) :
    Except Error FunctionCall :=
  .ok
    { Action := FunctionCallAction
      MethodName := { Value := method }
      Args := args
      Gas := { Value := gas }
      Deposit := { Value := deposit } }

/-- Go: `func (s *FunctionCall) GetActionIndex() uint8` -/
def FunctionCall.GetActionIndex (s : FunctionCall) : Nat :=
  s.Action

/-- Go: `func (s *FunctionCall) Serialize() ([]byte, error)` -/
def FunctionCall.Serialize (s : FunctionCall) : Except Error (List Byte) :=
  let data := [s.Action]
  match s.MethodName.Serialize with
  | .error err => .error err
  | .ok v =>
    let data := data ++ v
    let data := data ++ s.Args
    match s.Gas.Serialize with
    | .error err1 => .error err1
    | .ok v1 =>
      let data := data ++ v1
      match s.Deposit.Serialize with
      | .error err2 => .error err2
      | .ok v2 =>
        let data := data ++ v2
        .ok data

/-- Go: `type Transfer struct { Action uint8; Value U128 }` -/
structure Transfer where
  Action : Nat
  Value : U128
  deriving DecidableEq

/-- Go: `func CreateTransfer(amount string) (*Transfer, error)`.  The library calls
`decimal.NewFromString(amount)` and `dec.BigInt()` are the argument `parseAmount`:
the integer the decimal string stands for, or the parse error. -/
def CreateTransfer (parseAmount : List Byte → Except Error Int) (amount : List Byte) :
    Except Error Transfer :=
  match parseAmount amount with
  | .error err => .error err
  | .ok dec => .ok { Action := TransferAction, Value := { Value := dec } }

/-- Go: `func (s *Transfer) GetActionIndex() uint8` -/
def Transfer.GetActionIndex (s : Transfer) : Nat :=
  s.Action

/-- Go: `func (s *Transfer) Serialize() ([]byte, error)` -/
def Transfer.Serialize (s : Transfer) : Except Error (List Byte) :=
  let data := [s.Action]
  match s.Value.Serialize with
  | .error err => .error err
  | .ok v => .ok (data ++ v)

/-- Go: `type CreateAccount struct { Action uint8 }` -/
structure CreateAccount where
  Action : Nat
  deriving DecidableEq

/-- Go: `func (s *CreateAccount) GetActionIndex() uint8` -/
def CreateAccount.GetActionIndex (s : CreateAccount) : Nat :=
  s.Action

/-- Go: `func (s *CreateAccount) Serialize() ([]byte, error)` -/
def CreateAccount.Serialize (s : CreateAccount) : Except Error (List Byte) :=
  .ok [s.Action]

end serialize

namespace bridge

/-- The bridge implementation `NewCrossChainBridge` returns, named after the
package whose `NewCrossChainBridge()` built it. -/
inductive IBridge where
  | tron
  | ripple
  | near
  | eth
  deriving DecidableEq

/-- What the dispatcher uses of the packages `tron`, `ripple` and `near`, which
are not among the sources: the two Tron chain identifiers (`uint64` constants)
and the two chain-identifier predicates on a `*big.Int`. -/
structure Packages where
  TronMainnetChainID : Nat
  TronShastaChainID : Nat
  rippleSupportsChainID : Int → Bool
  nearSupportsChainID : Int → Bool

/-- The outcome of a call of the dispatcher: the bridge it returns, or the
process halted by `log.Fatal("wrong chainID", ...)`. -/
inductive Outcome where
  | returned (b : IBridge)
  | fatal
  deriving DecidableEq

/-- Go: `(*big.Int).Uint64`, the low 64 bits of the absolute value (the
conversion ignores the sign and drops the higher bits). -/
def Uint64 (x : Int) : Nat :=
  x.natAbs % 2 ^ 64

/-- Go: `func NewCrossChainBridge(chainID *big.Int) tokens.IBridge` -/
def NewCrossChainBridge (p : Packages) (chainID : Int) : Outcome :=
  if Uint64 chainID = p.TronMainnetChainID ∨ Uint64 chainID = p.TronShastaChainID then
    .returned .tron
  else if p.rippleSupportsChainID chainID then
    .returned .ripple
  else if p.nearSupportsChainID chainID then
    .returned .near
  else if chainID.sign ≤ 0 then
    .fatal
  else
    .returned .eth

end bridge

namespace tokens

/-- The error values of package `tokens` (and the two of `verifytx.go`) that the
Near code returns, the errors of the RPC layer, and the errors made on the spot
with `errors.New` or `fmt.Errorf`. -/
inductive Error where
  | ErrWrongRawTx
  | ErrWrongCountOfMsgHashes
  | ErrMsgHashMismatch
  | ErrSwapTypeNotSupported
  | ErrTxNotFound
  | ErrTxIsNotValidated
  | ErrTxNotStable
  | ErrTxBeforeInitialHeight
  | ErrMissTokenConfig
  | ErrTxWithWrongSender
  | ErrNoBridgeForChainID
  | ErrTxWithWrongValue
  | ErrWrongBindAddress
  | errTxResultType
  | errTxLogParse
  /-- an error returned by an RPC call, with its message -/
  | rpc (msg : String)
  | ErrToChainIDMismatch
  | ErrSenderMismatch
  | ErrMissMPCPublicKey
  /-- Go: `errors.New(msg)` or `fmt.Errorf(msg)` -/
  | New (msg : String)
  deriving DecidableEq

/-- Go: `type SwapType`; the code names only `ERC20SwapType`. -/
inductive SwapType where
  | ERC20SwapType
  | other (code : Nat)
  deriving DecidableEq

/-- Go: `type TokenConfig`, the fields the code reads (`Decimals` is a `uint8`). -/
structure TokenConfig where
  TokenID : String
  Decimals : Nat
  deriving DecidableEq

/-- Go: `type ERC20SwapInfo`, the fields the code reads or writes. -/
structure ERC20SwapInfo where
  Token : String := ""
  TokenID : String := ""
  ForNative : Bool := false
  deriving DecidableEq

/-- Go: `type SwapTxInfo` (with its embedded `SwapInfo`), the fields the code reads
or writes.  A `*big.Int` field is `none` while it is the nil pointer. -/
structure SwapTxInfo where
  ERC20SwapInfo : ERC20SwapInfo := {}
  SwapType : SwapType := .other 0
  Hash : String := ""
  From : String := ""
  To : String := ""
  Bind : String := ""
  Value : Option Int := none
  LogIndex : Int := 0
  FromChainID : Option Int := none
  ToChainID : Option Int := none
  deriving DecidableEq

/-- Go: `type IBridge interface`, the two methods the Near code calls on the bridge
of another chain. -/
structure IBridge where
  GetTokenConfig : String → Option TokenConfig
  IsValidAddress : String → Bool

/-- Go: `type AllExtras`, the three fields the Near code resolves; a pointer field is
`none` while it is nil. -/
structure AllExtras where
  Sequence : Option Nat := none
  Gas : Option Nat := none
  BlockHash : Option String := none
  deriving DecidableEq

/-- Go: `type BuildTxArgs`, the fields the Near code reads or writes.  `Input` says
whether `args.Input != nil`; `GetTokenID` is the result of the method
`args.GetTokenID()`. -/
structure BuildTxArgs where
  SwapType : SwapType := .ERC20SwapType
  ERC20SwapInfo : ERC20SwapInfo := {}
  SwapID : String := ""
  LogIndex : Int := 0
  FromChainID : Int := 0
  ToChainID : Int := 0
  From : String := ""
  Bind : String := ""
  OriginValue : Int := 0
  OriginFrom : String := ""
  OriginTxTo : String := ""
  SwapValue : Option Int := none
  Input : Bool := false
  GetTokenID : String := ""
  Extra : Option AllExtras := none
  deriving DecidableEq

/-- Go: `(*big.Int).String()`, the decimal text of the number, `"<nil>"` for the nil
pointer. -/
def bigString : Option Int → String
  | none => "<nil>"
  | some i => toString i

end tokens

namespace router

/-- The lookups of package `router` the Near code calls (the package is not among
the sources): `GetCachedMultichainToken(tokenID, chainID)`,
`GetBridgeByChainID(chainID)`, `GetRouterMPC(tokenID, chainID)` and
`GetMPCPublicKey(address)`. -/
structure Lookups where
  GetCachedMultichainToken : String → String → String
  GetBridgeByChainID : String → Option tokens.IBridge
  GetRouterMPC : String → String → Except tokens.Error String
  GetMPCPublicKey : String → String

end router

namespace params

/-- The settings of package `params` the Near code reads (the package is not among
the sources). -/
structure Settings where
  IsTestMode : Bool
  IsParallelSwapEnabled : Bool
  IsAutoSwapNonceEnabled : String → Bool

end params

namespace near

open tokens

/-- A byte of a Go `[]byte`. -/
abbrev Byte := Nat

/-- Go: `copy(dst[:], src)` into a zeroed array of `n` bytes: the first `n` bytes of
`src`, padded with zeros when `src` is shorter. -/
def copyArray (n : Nat) (src : List Byte) : List Byte :=
  src.take n ++ List.replicate (n - src.length) 0

/-- Modelled from the spec: `type PublicKey` of package `near` (its declaration is not
among the sources); the spec has a type tag and 32 bytes. -/
structure PublicKey where
  KeyType : Nat
  Data : List Byte
  deriving DecidableEq

/-- Modelled from the spec: `type Signature` of package `near` (its declaration is not
among the sources); the spec has a key-type tag and 64 signature bytes. -/
structure Signature where
  KeyType : Nat
  Data : List Byte
  deriving DecidableEq

/-- Go: `type FunctionCall` of package `near`, as `createFunctionCall` fills it
(`Gas` is a `uint64`, `Deposit` a `big.Int`). -/
structure FunctionCall where
  MethodName : String
  Args : List Byte
  Gas : Nat
  Deposit : Int
  deriving DecidableEq

/-- Go: `type Action` of package `near`, as `createFunctionCall` fills it. -/
structure Action where
  Enum : Nat
  FunctionCall : FunctionCall
  deriving DecidableEq

/-- Modelled from the spec: `type RawTransaction` of package `near` (its declaration is
not among the sources), with the fields `CreateTransaction` assigns; the block
hash is an array of 32 bytes. -/
structure RawTransaction where
  SignerID : String
  PublicKey : PublicKey
  ReceiverID : String
  Nonce : Nat
  BlockHash : List Byte
  Actions : List Action
  deriving DecidableEq

/-- Go: `type SignedTransaction` of package `near`, as `MPCSignTransaction` fills it. -/
structure SignedTransaction where
  Transaction : RawTransaction
  Signature : Signature
  deriving DecidableEq

/-- Go: `txres.Status`; `Failure` says whether `Status.Failure != nil`. -/
structure Status where
  Failure : Bool

/-- Go: `txres.TransactionOutcome`, the field the status check reads. -/
structure TransactionOutcome where
  BlockHash : String

/-- Go: `receipt.Outcome`, the fields `fliterReceipts` reads. -/
structure Outcome where
  ExecutorID : String
  Logs : List String

/-- Go: `type ReceiptsOutcome`, the field `fliterReceipts` reads. -/
structure ReceiptsOutcome where
  Outcome : Outcome

/-- Go: `type TransactionResult`, the fields the verification reads. -/
structure TransactionResult where
  Status : Status
  TransactionOutcome : TransactionOutcome
  ReceiptsOutcome : List ReceiptsOutcome := []

/-- A Go `interface{}` value as the type assertions of the code see it: a
`*RawTransaction`, a `*TransactionResult`, or a value of another type. -/
inductive Interface where
  | RawTransaction (tx : RawTransaction)
  | TransactionResult (txres : TransactionResult)
  | other

/-- Go: `type AnySwapIn`, the call arguments of `any_swap_in`. -/
structure AnySwapIn where
  Tx : String
  Token : String
  To : String
  Amount : String
  FromChainID : String
  deriving DecidableEq

/-- Go: `type SwapInNative`, the call arguments of `swap_in_native`. -/
structure SwapInNative where
  Tx : String
  To : String
  Amount : String
  FromChainID : String
  deriving DecidableEq

/-- The functions of libraries and of packages that are not among the sources:
`foldRune` gives the representative of a rune under Unicode simple case
folding (what `strings.EqualFold` compares), `ToLower` is `strings.ToLower`,
`GetBigIntFromStr` and `IsEqualIgnoreCase` are of package `common`, as are
`ToHex` and `FromHex`; `borshSerialize` is `borsh.Serialize` on a
`RawTransaction`, `Sum256` is `sha256.Sum256`, `base58Encode` and
`base58Decode` are of package `base58`, the two `jsonMarshal` functions are
`json.Marshal` on the two argument records, `CheckTokenSwapValue` and
`CalcSwapValue` are of package `tokens`, `PublicKeyFromString` of package
`near`. -/
structure Libraries where
  foldRune : Char → Char
  ToLower : String → String
  GetBigIntFromStr : String → Except Error Int
  IsEqualIgnoreCase : String → String → Bool
  ToHex : List Byte → String
  FromHex : String → List Byte
  borshSerialize : RawTransaction → Except Error (List Byte)
  Sum256 : List Byte → List Byte
  base58Encode : List Byte → String
  base58Decode : String → Except Error (List Byte)
  jsonMarshalAnySwapIn : AnySwapIn → List Byte
  jsonMarshalSwapInNative : SwapInNative → List Byte
  CheckTokenSwapValue : SwapTxInfo → Nat → Nat → Bool
  CalcSwapValue : String → String → String → Int → Nat → Nat → String → String → Int
  PublicKeyFromString : String → Except Error PublicKey

/-- Go: `type ChainConfig`, the fields the Near code reads (`Confirmations` and
`InitialHeight` are `uint64`); `GetChainID` is the result of the method
`GetChainID()`. -/
structure ChainConfig where
  Confirmations : Nat
  InitialHeight : Nat
  ChainID : String := ""
  RouterContract : String := ""
  GetChainID : Option Int := none

/-- The bridge as the Near code sees it: its chain configuration, its token
configuration (`GetTokenConfig`, `GetRouterContract`, `IsValidAddress`), the
results of its RPC queries (`GetLatestBlockNumber()`,
`GetBlockNumberByHash(hash)`, `GetTransaction(txHash)`,
`GetLatestBlockHash()`, and `GetAccountNonce(address, pubkey)`, whose first
argument counts the queries made before) and the nonce bookkeeping of its
embedded `NonceSetterBase` (`AllocateNonce`, `GetSwapNonce`, `AdjustNonce`). -/
structure Bridge where
  ChainConfig : ChainConfig
  GetLatestBlockNumber : Except Error Nat
  GetBlockNumberByHash : String → Except Error Nat
  GetTransaction : String → Except Error Interface := fun _ => .error (.rpc "")
  GetLatestBlockHash : Except Error String := .error (.rpc "")
  GetAccountNonce : Nat → String → String → Except Error Nat := fun _ _ _ => .error (.rpc "")
  GetTokenConfig : String → Option TokenConfig := fun _ => none
  GetRouterContract : String → String := fun _ => ""
  IsValidAddress : String → Bool := fun _ => false
  AllocateNonce : BuildTxArgs → Nat × Option Error := fun _ => (0, none)
  GetSwapNonce : String → Nat := fun _ => 0
  AdjustNonce : String → Nat → Nat := fun _ n => n

/-! ## `verifytx.go` -/

/-- Go: `logFile = "LogSwapOut"` -/
def logFile : String := "LogSwapOut"

/-- Go: `unicode.IsSpace`, the code points with the Unicode property White_Space. -/
def isSpace (c : Char) : Bool :=
  let r := c.toNat
  (0x09 ≤ r ∧ r ≤ 0x0d) ∨ r = 0x20 ∨ r = 0x85 ∨ r = 0xa0 ∨ r = 0x1680 ∨
    (0x2000 ≤ r ∧ r ≤ 0x200a) ∨ r = 0x2028 ∨ r = 0x2029 ∨ r = 0x202f ∨ r = 0x205f ∨
    r = 0x3000

/-- The fields of a list of runes: `cur` holds, reversed, the runes of the field
being read. -/
def fieldsAux : List Char → List Char → List String
  | [], cur => if cur = [] then [] else [String.mk cur.reverse]
  | c :: cs, cur =>
    if isSpace c then
      if cur = [] then fieldsAux cs [] else String.mk cur.reverse :: fieldsAux cs []
    else
      fieldsAux cs (c :: cur)

/-- Go: `strings.Fields`, the maximal runs of non-space runes of the string. -/
def Fields (s : String) : List String :=
  fieldsAux s.data []

/-- Go: `strings.EqualFold`, equality of the two strings rune by rune under Unicode
simple case folding. -/
def EqualFold (lib : Libraries) (s t : String) : Bool :=
  decide (s.data.map lib.foldRune = t.data.map lib.foldRune)

/-- Go: `func (b *Bridge) VerifyMsgHash(rawTx interface{}, msgHashes []string) (err error)`;
`none` is the nil error. -/
def VerifyMsgHash (lib : Libraries) (rawTx : Interface) (msgHashes : List String) :
    Option Error :=
  match rawTx with
  | .RawTransaction txb =>
    match lib.borshSerialize txb with
    | .error errb => some errb
    | .ok buf =>
      let hash := lib.Sum256 buf
      match msgHashes with
      | [] => some .ErrWrongCountOfMsgHashes
      | msgHash :: _ =>
        let sigHash := lib.base58Encode hash
        if !EqualFold lib sigHash msgHash then
          some .ErrMsgHashMismatch
        else
          none
  | _ => some .ErrWrongRawTx

/-- Go: `func fliterReceipts(receipts []ReceiptsOutcome, routerAddr string) (logs []string)` -/
def fliterReceipts : List ReceiptsOutcome → String → List String
  | [], _ => []
  | receipt :: receipts, routerAddr =>
    if receipt.Outcome.ExecutorID = routerAddr then
      receipt.Outcome.Logs ++ fliterReceipts receipts routerAddr
    else
      fliterReceipts receipts routerAddr

/-- Go: `func fliterEvent(logs []string) ([]string, error)` -/
def fliterEvent : List String → Except Error (List String)
  | [] => .error .errTxLogParse
  | log :: logs =>
    let words := Fields log
    if words.length = 13 ∧ words.head? = some logFile then
      .ok words
    else
      fliterEvent logs

/-- Go: `func (b *Bridge) checkTxStatus(txres *TransactionResult, allowUnstable bool) error`;
`none` is the nil error.  The sum `txHeight+b.GetChainConfig().Confirmations`
is a `uint64` sum, hence taken modulo `2^64`. -/
def checkTxStatus (b : Bridge) (txres : TransactionResult) (allowUnstable : Bool) :
    Option Error :=
  if txres.Status.Failure then
    some .ErrTxIsNotValidated
  else if !allowUnstable then
    match b.GetLatestBlockNumber with
    | .error errh1 => some errh1
    | .ok lastHeight =>
      match b.GetBlockNumberByHash txres.TransactionOutcome.BlockHash with
      | .error errh2 => some errh2
      | .ok txHeight =>
        if lastHeight < (txHeight + b.ChainConfig.Confirmations) % 2 ^ 64 then
          some .ErrTxNotStable
        else if lastHeight < b.ChainConfig.InitialHeight then
          some .ErrTxBeforeInitialHeight
        else
          none
  else
    none

/-- Go: `func (b *Bridge) parseNep141SwapoutTxEvent(swapInfo *tokens.SwapTxInfo, event []string) error`.
The result is the swap info as the call leaves it and the error (`none` for
nil); the whole result is `none` when an index `event[i]` is out of range and
the call panics. -/
def parseNep141SwapoutTxEvent (lib : Libraries) (b : Bridge) (swapInfo : SwapTxInfo)
    (event : List String) : Option (SwapTxInfo × Option Error) :=
  match event[2]? with
  | none => none
  | some token =>
    let swapInfo := { swapInfo with ERC20SwapInfo := { swapInfo.ERC20SwapInfo with Token := token } }
    match event[4]? with
    | none => none
    | some sender =>
      let swapInfo := { swapInfo with From := sender }
      match event[6]? with
      | none => none
      | some bind =>
        let swapInfo := { swapInfo with Bind := bind }
        match event[8]? with
        | none => none
        | some amountStr =>
          match lib.GetBigIntFromStr amountStr with
          | .error erra => some (swapInfo, some erra)
          | .ok amount =>
            let swapInfo := { swapInfo with Value := some amount }
            match event[12]? with
            | none => none
            | some toChainStr =>
              match lib.GetBigIntFromStr toChainStr with
              | .error errt => some (swapInfo, some errt)
              | .ok toChainID =>
                let swapInfo := { swapInfo with ToChainID := some toChainID }
                match b.GetTokenConfig swapInfo.ERC20SwapInfo.Token with
                | none => some (swapInfo, some .ErrMissTokenConfig)
                | some tokenCfg =>
                  let swapInfo := { swapInfo with
                    ERC20SwapInfo := { swapInfo.ERC20SwapInfo with TokenID := tokenCfg.TokenID } }
                  let depositAddress := b.GetRouterContract swapInfo.ERC20SwapInfo.Token
                  some ({ swapInfo with To := depositAddress }, none)

/-- Go: `func (b *Bridge) checkSwapoutInfo(swapInfo *tokens.SwapTxInfo) error`; `none`
is the nil error. -/
def checkSwapoutInfo (lib : Libraries) (r : router.Lookups) (b : Bridge)
    (swapInfo : SwapTxInfo) : Option Error :=
  if EqualFold lib swapInfo.From swapInfo.To then
    some .ErrTxWithWrongSender
  else
    let erc20SwapInfo := swapInfo.ERC20SwapInfo
    match b.GetTokenConfig erc20SwapInfo.Token with
    | none => some .ErrMissTokenConfig
    | some fromTokenCfg =>
      if erc20SwapInfo.TokenID = "" then
        some .ErrMissTokenConfig
      else
        let multichainToken :=
          r.GetCachedMultichainToken erc20SwapInfo.TokenID (bigString swapInfo.ToChainID)
        if multichainToken = "" then
          some .ErrMissTokenConfig
        else
          match r.GetBridgeByChainID (bigString swapInfo.ToChainID) with
          | none => some .ErrNoBridgeForChainID
          | some toBridge =>
            match toBridge.GetTokenConfig multichainToken with
            | none => some .ErrMissTokenConfig
            | some toTokenCfg =>
              if !lib.CheckTokenSwapValue swapInfo fromTokenCfg.Decimals toTokenCfg.Decimals then
                some .ErrTxWithWrongValue
              else
                let bindAddr := swapInfo.Bind
                if !toBridge.IsValidAddress bindAddr then
                  some .ErrWrongBindAddress
                else
                  none

/-- Go: `func (b *Bridge) verifySwapoutTx(txHash string, logIndex int, allowUnstable bool) (*tokens.SwapTxInfo, error)`.
The result is the swap info returned and the error (`none` for nil); the whole
result is `none` when the call panics. -/
def verifySwapoutTx (lib : Libraries) (r : router.Lookups) (b : Bridge)
    (txHash : String) (logIndex : Int) (allowUnstable : Bool) :
    Option (SwapTxInfo × Option Error) :=
  let swapInfo : SwapTxInfo :=
    { SwapType := .ERC20SwapType
      Hash := lib.ToLower txHash
      LogIndex := logIndex
      FromChainID := b.ChainConfig.GetChainID }
  match b.GetTransaction txHash with
  | .error _ => some (swapInfo, some .ErrTxNotFound)
  | .ok tx =>
    match tx with
    | .TransactionResult txres =>
      match checkTxStatus b txres allowUnstable with
      | some statusErr => some (swapInfo, some statusErr)
      | none =>
        let events := fliterReceipts txres.ReceiptsOutcome b.ChainConfig.RouterContract
        match fliterEvent events with
        | .error _ => some (swapInfo, some .errTxLogParse)
        | .ok event =>
          match parseNep141SwapoutTxEvent lib b swapInfo event with
          | none => none
          | some (swapInfo, some parseErr) => some (swapInfo, some parseErr)
          | some (swapInfo, none) =>
            match checkSwapoutInfo lib r b swapInfo with
            | some checkErr => some (swapInfo, some checkErr)
            | none => some (swapInfo, none)
    | _ => some (swapInfo, some .errTxResultType)

/-! ## `buildtx.go` -/

/-- Go: `defaultGasLimit uint64 = 70_000_000_000_000` -/
def defaultGasLimit : Nat := 70000000000000

/-- Go: `swapinMethod string = "any_swap_in"` -/
def swapinMethod : String := "any_swap_in"

/-- Go: `swapinNativeMethod string = "swap_in_native"` -/
def swapinNativeMethod : String := "swap_in_native"

/-- Go: `retryRPCCount = 3` -/
def retryRPCCount : Nat := 3

/-- A call the sequence and extras resolution makes on the bridge, for the record of
the calls made: a pending-sequence query `GetPoolNonce` (with the number of
queries made before it), `AllocateNonce`, `GetSwapNonce`, `AdjustNonce`,
`GetLatestBlockHash`. -/
inductive Call where
  | GetPoolNonce (query : Nat)
  | AllocateNonce
  | GetSwapNonce
  | AdjustNonce
  | GetLatestBlockHash
  deriving DecidableEq

/-- Go: `func (b *Bridge) GetPoolNonce(address, _height string) (uint64, error)`; the
first argument counts the queries made before this one. -/
def GetPoolNonce (r : router.Lookups) (b : Bridge) (query : Nat) (address _height : String) :
    Except Error Nat :=
  let mpcPubkey := r.GetMPCPublicKey address
  b.GetAccountNonce query address mpcPubkey

/-- The loop `for i := 0; i < retryRPCCount; i++ { ... }` of `GetSeq`, from the
iteration `i` on with `remaining` iterations left: the values of `nonce` and
`err` after the loop and the record of the queries made.  The sleep between
two attempts has no part in the result. -/
def pendingNonceLoop (r : router.Lookups) (b : Bridge) (address : String) :
    (remaining i nonce : Nat) → Option Error → Nat × Option Error × List Call
  | 0, _, nonce, err => (nonce, err, [])
  | remaining + 1, i, _, _ =>
    match GetPoolNonce r b i address "pending" with
    | .ok nonce => (nonce, none, [.GetPoolNonce i])
    | .error err =>
      let (nonce, err, calls) := pendingNonceLoop r b address remaining (i + 1) 0 (some err)
      (nonce, err, .GetPoolNonce i :: calls)

/-- Go: `func (b *Bridge) GetSeq(args *tokens.BuildTxArgs) (nonceptr *uint64, err error)`:
the pointer returned (`none` for nil), the error (`none` for nil) and the
record of the calls made. -/
def GetSeq (p : params.Settings) (r : router.Lookups) (b : Bridge) (args : BuildTxArgs) :
    Option Nat × Option Error × List Call :=
  if p.IsParallelSwapEnabled then
    let (nonce, err) := b.AllocateNonce args
    (some nonce, err, [.AllocateNonce])
  else if p.IsAutoSwapNonceEnabled b.ChainConfig.ChainID then
    let nonce := b.GetSwapNonce args.From
    (some nonce, none, [.GetSwapNonce])
  else
    match pendingNonceLoop r b args.From retryRPCCount 0 0 none with
    | (_, some err, calls) => (none, some err, calls)
    | (nonce, none, calls) =>
      let nonce := b.AdjustNonce args.From nonce
      (some nonce, none, calls ++ [.AdjustNonce])

/-- Go: `func (b *Bridge) initExtra(args *tokens.BuildTxArgs) (extra *tokens.AllExtras, err error)`:
the request as the call leaves it (`args.Extra` is written through the
pointer), the extras returned (`none` for nil), the error (`none` for nil) and
the record of the calls made. -/
def initExtra (p : params.Settings) (r : router.Lookups) (b : Bridge) (args : BuildTxArgs) :
    BuildTxArgs × Option AllExtras × Option Error × List Call :=
  let extra : AllExtras :=
    match args.Extra with
    | none => {}
    | some extra => extra
  let args := { args with Extra := some extra }
  let seqStep : AllExtras × Option Error × List Call :=
    match extra.Sequence with
    | none =>
      let (seq, err, calls) := GetSeq p r b args
      ({ extra with Sequence := seq }, err, calls)
    | some _ => (extra, none, [])
  match seqStep with
  | (extra, some err, calls) => ({ args with Extra := some extra }, none, some err, calls)
  | (extra, none, calls) =>
    let extra :=
      match extra.Gas with
      | none => { extra with Gas := some defaultGasLimit }
      | some _ => extra
    match extra.BlockHash with
    | none =>
      match b.GetLatestBlockHash with
      | .error err =>
        ({ args with Extra := some extra }, none, some err, calls ++ [.GetLatestBlockHash])
      | .ok blockHash =>
        let extra := { extra with BlockHash := some blockHash }
        ({ args with Extra := some extra }, some extra, none, calls ++ [.GetLatestBlockHash])
    | some _ => ({ args with Extra := some extra }, some extra, none, calls)

/-- Go: `func (b *Bridge) getReceiverAndAmount(args *tokens.BuildTxArgs, multichainToken string) (receiver string, amount *big.Int, err error)` -/
def getReceiverAndAmount (lib : Libraries) (r : router.Lookups) (b : Bridge)
    (args : BuildTxArgs) (multichainToken : String) : String × Option Int × Option Error :=
  let erc20SwapInfo := args.ERC20SwapInfo
  let receiver := args.Bind
  if !b.IsValidAddress receiver then
    (receiver, none, some (.New "swapout to invalid receiver"))
  else
    match r.GetBridgeByChainID (toString args.FromChainID) with
    | none => (receiver, none, some .ErrNoBridgeForChainID)
    | some fromBridge =>
      match fromBridge.GetTokenConfig erc20SwapInfo.Token with
      | none => (receiver, none, some .ErrMissTokenConfig)
      | some fromTokenCfg =>
        match b.GetTokenConfig multichainToken with
        | none => (receiver, none, some .ErrMissTokenConfig)
        | some toTokenCfg =>
          let amount := lib.CalcSwapValue erc20SwapInfo.TokenID (toString args.FromChainID)
            b.ChainConfig.ChainID args.OriginValue fromTokenCfg.Decimals toTokenCfg.Decimals
            args.OriginFrom args.OriginTxTo
          (receiver, some amount, none)

/-- Go: `func CreateTransaction(signerID string, publicKey *PublicKey, receiverID string, nonce uint64, blockHash []byte, actions []Action) *RawTransaction`;
`copy(tx.BlockHash[:], blockHash)` fills the array of 32 bytes. -/
def CreateTransaction (signerID : String) (publicKey : PublicKey) (receiverID : String)
    (nonce : Nat) (blockHash : List Byte) (actions : List Action) : RawTransaction :=
  { SignerID := signerID
    PublicKey := publicKey
    ReceiverID := receiverID
    Nonce := nonce
    BlockHash := copyArray 32 blockHash
    Actions := actions }

/-- Go: `func buildAnySwapInArgs(txHash, token, to, amount, fromChainID string) []byte` -/
def buildAnySwapInArgs (lib : Libraries) (txHash token to_ amount fromChainID : String) :
    List Byte :=
  let callArgs : AnySwapIn :=
    { Tx := txHash, Token := token, To := to_, Amount := amount, FromChainID := fromChainID }
  lib.jsonMarshalAnySwapIn callArgs

/-- Go: `func buildSwapInNativeArgs(txHash, to, amount, fromChainID string) []byte` -/
def buildSwapInNativeArgs (lib : Libraries) (txHash to_ amount fromChainID : String) :
    List Byte :=
  let callArgs : SwapInNative :=
    { Tx := txHash, To := to_, Amount := amount, FromChainID := fromChainID }
  lib.jsonMarshalSwapInNative callArgs

/-- Go: `func createFunctionCall(txHash, methodName, token, to, amount, fromChainID string, logIndex int, gas uint64) []Action`;
the result is `none` when the method name is unknown and `log.Fatalf` ends the
process.  The parameter `to` of the source is `to_` here. -/
def createFunctionCall (lib : Libraries) (txHash methodName token to_ amount fromChainID : String)
    (logIndex : Int) (gas : Nat) : Option (List Action) :=
  let swapID := txHash ++ ":" ++ toString logIndex
  let argsBytes : Option (List Byte) :=
    if methodName = swapinMethod then
      some (buildAnySwapInArgs lib swapID token to_ amount fromChainID)
    else if methodName = swapinNativeMethod then
      some (buildSwapInNativeArgs lib swapID to_ amount fromChainID)
    else
      none
  match argsBytes with
  | none => none
  | some argsBytes =>
    some [{ Enum := 2
            FunctionCall :=
              { MethodName := methodName, Args := argsBytes, Gas := gas, Deposit := 0 } }]

/-- Go: `func (b *Bridge) BuildRawTransaction(args *tokens.BuildTxArgs) (rawTx interface{}, err error)`:
the request as the call leaves it, and the transaction or the error; the
second part is `none` when the call does not return (a nil pointer is
dereferenced or `log.Fatalf` ends the process). -/
def BuildRawTransaction (lib : Libraries) (p : params.Settings) (r : router.Lookups)
    (b : Bridge) (args : BuildTxArgs) : BuildTxArgs × Option (Except Error RawTransaction) :=
  if !p.IsTestMode ∧ toString args.ToChainID ≠ b.ChainConfig.ChainID then
    (args, some (.error .ErrToChainIDMismatch))
  else if args.Input then
    (args, some (.error (.New "forbid build raw swap tx with input data")))
  else if args.From = "" then
    (args, some (.error (.New "forbid empty sender")))
  else
    match r.GetRouterMPC args.GetTokenID b.ChainConfig.ChainID with
    | .error getMpcErr => (args, some (.error getMpcErr))
    | .ok routerMPC =>
      if !lib.IsEqualIgnoreCase args.From routerMPC then
        (args, some (.error .ErrSenderMismatch))
      else
        match args.SwapType with
        | .other _ => (args, some (.error .ErrSwapTypeNotSupported))
        | .ERC20SwapType =>
          let mpcPubkey := r.GetMPCPublicKey args.From
          if mpcPubkey = "" then
            (args, some (.error .ErrMissMPCPublicKey))
          else
            match lib.PublicKeyFromString mpcPubkey with
            | .error err => (args, some (.error err))
            | .ok nearPubKey =>
              let erc20SwapInfo := args.ERC20SwapInfo
              let multichainToken :=
                r.GetCachedMultichainToken erc20SwapInfo.TokenID (toString args.ToChainID)
              if multichainToken = "" then
                (args, some (.error .ErrMissTokenConfig))
              else
                match b.GetTokenConfig multichainToken with
                | none => (args, some (.error .ErrMissTokenConfig))
                | some _ =>
                  match getReceiverAndAmount lib r b args multichainToken with
                  | (_, _, some err) => (args, some (.error err))
                  | (receiver, amount, none) =>
                    let args := { args with SwapValue := amount }
                    match initExtra p r b args with
                    | (args, _, some err, _) => (args, some (.error err))
                    | (args, none, none, _) => (args, none)
                    | (args, some extra, none, _) =>
                      match extra.BlockHash with
                      | none => (args, none)
                      | some blockHash =>
                        match lib.base58Decode blockHash with
                        | .error err => (args, some (.error err))
                        | .ok blockHashBytes =>
                          match extra.Gas with
                          | none => (args, none)
                          | some gas =>
                            let actions :=
                              if args.ERC20SwapInfo.ForNative then
                                createFunctionCall lib args.SwapID swapinNativeMethod
                                  multichainToken receiver (bigString amount)
                                  (toString args.FromChainID) args.LogIndex gas
                              else
                                createFunctionCall lib args.SwapID swapinMethod
                                  multichainToken receiver (bigString amount)
                                  (toString args.FromChainID) args.LogIndex gas
                            match actions with
                            | none => (args, none)
                            | some actions =>
                              let routerContract := b.GetRouterContract multichainToken
                              match extra.Sequence with
                              | none => (args, none)
                              | some sequence =>
                                (args, some (.ok (CreateTransaction args.From nearPubKey
                                  routerContract sequence blockHashBytes actions)))

end near

namespace main

open tokens near

/-- Go: `ed25519.SignatureSize` -/
def SignatureSize : Nat := 64

/-- Go: `func MPCSignTransaction(rawTx interface{}, paramPublicKey string) (signedTx interface{}, txHash string, err error)`.
The signing service `mpcConfig.DoSignOneED(pubkey, msgHash, msgContext)` is
the argument `DoSignOneED`; it returns the key identifier and the list of
signatures, or an error.  The result is the signed transaction (`none` for
nil), the transaction hash and the error (`none` for nil). -/
def MPCSignTransaction (lib : Libraries)
    (DoSignOneED : String → String → String → Except Error (String × List String))
    (rawTx : Interface) (paramPublicKey : String) :
    Option SignedTransaction × String × Option Error :=
  match rawTx with
  | .RawTransaction tx =>
    match lib.borshSerialize tx with
    | .error err => (none, "", some err)
    | .ok buf =>
      let hash := lib.Sum256 buf
      match DoSignOneED paramPublicKey (lib.ToHex hash) "" with
      | .error err => (none, "", some err)
      | .ok (_, rsvs) =>
        match rsvs with
        | [rsv] =>
          let sig := lib.FromHex rsv
          if sig.length ≠ SignatureSize then
            (none, "", some (.New "wrong signature length"))
          else
            let signature : Signature := { KeyType := 0, Data := copyArray 64 sig }
            let stx : SignedTransaction := { Transaction := tx, Signature := signature }
            let txHash := lib.base58Encode hash
            (some stx, txHash, none)
        | _ => (none, "", some (.New "get sign status require one rsv but return many"))
  | _ => (none, "", some .ErrWrongRawTx)

end main

namespace near

/-- The schema of a swap-out log line, in the words of the spec: the line splits on
white space into exactly 13 fields and the first field is the tag `LogSwapOut`. -/
def isSwapOutLog (log : String) : Bool :=
  decide ((Fields log).length = 13 ∧ (Fields log).head? = some logFile)

end near

/-! ## Stand-ins for the library functions

The theorems hold for every value of `near.Libraries`.  To run the code on a
concrete input the library functions need values; the ones below are plain
stand-ins (decimal and hexadecimal text, base-58 text, ASCII case folding, the
fields of a record joined by commas for `json.Marshal`, the first 32 bytes for
the digest). -/

namespace sample

open tokens near

/-- The number a list of decimal digits stands for, `none` when a rune is no digit. -/
def digitsValue : List Char → Nat → Option Nat
  | [], acc => some acc
  | c :: cs, acc => if c.isDigit then digitsValue cs (acc * 10 + (c.toNat - 48)) else none

/-- Stand-in for `common.GetBigIntFromStr`: decimal text, with an optional minus sign. -/
def GetBigIntFromStr (s : String) : Except Error Int :=
  match s.data with
  | [] => .error (.New "invalid number")
  | '-' :: cs =>
    match cs, digitsValue cs 0 with
    | _ :: _, some n => .ok (-(n : Int))
    | _, _ => .error (.New "invalid number")
  | cs =>
    match digitsValue cs 0 with
    | some n => .ok (n : Int)
    | none => .error (.New "invalid number")

/-- The hexadecimal digit of a number below 16. -/
def hexDigit (n : Nat) : Char :=
  "0123456789abcdef".data.getD n '0'

/-- The value of a hexadecimal digit. -/
def hexValue (c : Char) : Nat :=
  if c.isDigit then c.toNat - 48
  else if 97 ≤ c.toNat ∧ c.toNat ≤ 102 then c.toNat - 87
  else if 65 ≤ c.toNat ∧ c.toNat ≤ 70 then c.toNat - 55
  else 0

/-- Stand-in for `common.ToHex`: `0x` and two hexadecimal digits for each byte. -/
def ToHex (bytes : List Byte) : String :=
  String.mk ('0' :: 'x' :: bytes.flatMap fun b => [hexDigit (b / 16 % 16), hexDigit (b % 16)])

/-- The bytes of a list of hexadecimal digits, two digits for each byte. -/
def hexPairs : List Char → List Byte
  | a :: b :: cs => (hexValue a * 16 + hexValue b) :: hexPairs cs
  | _ => []

/-- Stand-in for `common.FromHex`: the bytes of hexadecimal text, with an optional `0x`. -/
def FromHex (s : String) : List Byte :=
  match s.data with
  | '0' :: 'x' :: cs => hexPairs cs
  | cs => hexPairs cs

/-- The base-58 digits of a number, most significant first. -/
def base58Digits : Nat → Nat → List Char
  | 0, _ => []
  | fuel + 1, n =>
    if n = 0 then []
    else
      base58Digits fuel (n / 58) ++
        ["123456789ABCDEFGHJKLMNPQRSTUVWXYZabcdefghijkmnopqrstuvwxyz".data.getD (n % 58) '1']

/-- Stand-in for `base58.Encode`: a `1` for each leading zero byte, then the base-58
digits of the big-endian number. -/
def base58Encode (bytes : List Byte) : String :=
  let n := bytes.foldl (fun acc b => acc * 256 + b) 0
  String.mk ((bytes.takeWhile (· = 0)).map (fun _ => '1') ++ base58Digits n n)

/-- The fields of a record as bytes, joined by commas. -/
def joinFields (fields : List String) : List Byte :=
  (String.intercalate "," fields).data.map Char.toNat

/-- The stand-ins together. -/
def lib : Libraries where
  foldRune := Char.toLower
  ToLower := fun s => String.mk (s.data.map Char.toLower)
  GetBigIntFromStr := GetBigIntFromStr
  IsEqualIgnoreCase := fun s t => decide (s.data.map Char.toLower = t.data.map Char.toLower)
  ToHex := ToHex
  FromHex := FromHex
  borshSerialize := fun tx => .ok (tx.Nonce % 256 :: tx.BlockHash)
  Sum256 := copyArray 32
  base58Encode := base58Encode
  base58Decode := fun _ => .ok (List.replicate 32 0)
  jsonMarshalAnySwapIn := fun a => joinFields [a.Tx, a.Token, a.To, a.Amount, a.FromChainID]
  jsonMarshalSwapInNative := fun a => joinFields [a.Tx, a.To, a.Amount, a.FromChainID]
  CheckTokenSwapValue := fun _ _ _ => true
  CalcSwapValue := fun _ _ _ value _ _ _ _ => value
  PublicKeyFromString := fun _ => .ok { KeyType := 0, Data := List.replicate 32 0 }

/-- A swap-out log line of the router contract whose sender is the router contract
itself. -/
def selfSwapLog : String :=
  "LogSwapOut token usdt.near sender router.near receiver 0xabc amount 100 from_chain_id 1 to_chain_id 56"

/-- The same log line with an amount field that is no number. -/
def selfSwapLogBadAmount : String :=
  "LogSwapOut token usdt.near sender router.near receiver 0xabc amount abc from_chain_id 1 to_chain_id 56"

/-- A Near bridge with router contract `router.near`, a configuration for every
token and one transaction, successful and confirmed, in which the router
contract emitted the given log lines. -/
def nearBridge (logs : List String) : Bridge where
  ChainConfig :=
    { Confirmations := 10, InitialHeight := 0, ChainID := "1001313161554",
      RouterContract := "router.near", GetChainID := some 1001313161554 }
  GetLatestBlockNumber := .ok 100
  GetBlockNumberByHash := fun _ => .ok 5
  GetTransaction := fun _ =>
    .ok (.TransactionResult
      { Status := { Failure := false }
        TransactionOutcome := { BlockHash := "h" }
        ReceiptsOutcome := [{ Outcome := { ExecutorID := "router.near", Logs := logs } }] })
  GetLatestBlockHash := .ok "4vJ9JU1bJJE96FWSJKvHsmmFADCg4gpZQff4P3bkLKi"
  GetAccountNonce := fun _ _ _ => .ok 7
  GetTokenConfig := fun _ => some { TokenID := "USDT", Decimals := 6 }
  GetRouterContract := fun _ => "router.near"
  IsValidAddress := fun _ => true

/-- Router lookups with a token mapping and a bridge for every destination chain. -/
def lookups : router.Lookups where
  GetCachedMultichainToken := fun _ _ => "0xusdt"
  GetBridgeByChainID := fun _ =>
    some { GetTokenConfig := fun _ => some { TokenID := "USDT", Decimals := 18 }
           IsValidAddress := fun _ => true }
  GetRouterMPC := fun _ _ => .ok "mpc.near"
  GetMPCPublicKey := fun _ => "ed25519:8hSHprDq2StXwMtNd43wDTXQYsjXcD4MJTXQYsjXcc"

/-- An unsigned transaction: the call of `any_swap_in` on `router.near` signed by
`mpc.near` with nonce 7. -/
def rawTx : RawTransaction :=
  CreateTransaction "mpc.near" { KeyType := 0, Data := List.replicate 32 1 } "router.near" 7
    (List.replicate 32 9)
    [{ Enum := 2
       FunctionCall :=
        { MethodName := "any_swap_in"
          Args := lib.jsonMarshalAnySwapIn
            { Tx := "0xabc:0", Token := "usdt.near", To := "bob.near", Amount := "100",
              FromChainID := "56" }
          Gas := 70000000000000
          Deposit := 0 } }]

/-- A signing service that answers every request with one signature of 64 bytes. -/
def signer : String → String → String → Except Error (String × List String) :=
  fun _ _ _ => .ok ("keyid", [ToHex (List.replicate 64 5)])

/-- A signing service that answers every request with the given signatures. -/
def signerOf (rsvs : List String) : String → String → String → Except Error (String × List String) :=
  fun _ _ _ => .ok ("keyid", rsvs)

/-- The number a list of ASCII decimal digits stands for, `none` when a byte is no
digit. -/
def decimalValue : List Nat → Nat → Option Nat
  | [], acc => some acc
  | c :: cs, acc =>
    if 48 ≤ c ∧ c ≤ 57 then decimalValue cs (acc * 10 + (c - 48)) else none

/-- Stand-in for `decimal.NewFromString(amount)` followed by `dec.BigInt()`, on the
amounts written as a non-empty run of decimal digits: the integer the digits
stand for; every other text is a parse error here. -/
def parseAmount (amount : List Nat) : Except serialize.Error Int :=
  match amount with
  | [] => .error .decimalParse
  | cs =>
    match decimalValue cs 0 with
    | some n => .ok (n : Int)
    | none => .error .decimalParse

end sample

/-! # Theorems -/

namespace serialize

/-! ## Little-endian integers -/

theorem PutUint32_eq_littleEndian (v : Nat) : PutUint32 v = littleEndian 4 v := by
  simp [PutUint32, littleEndian, List.range_succ, Nat.shiftRight_eq_div_pow]

theorem PutUint64_eq_littleEndian (v : Nat) : PutUint64 v = littleEndian 8 v := by
  simp [PutUint64, littleEndian, List.range_succ, Nat.shiftRight_eq_div_pow]

theorem PutUint32_length (v : Nat) : (PutUint32 v).length = 4 := rfl

theorem PutUint64_length (v : Nat) : (PutUint64 v).length = 8 := rfl

theorem leValue_PutUint32 (v : Nat) (hv : v < 2 ^ 32) : leValue (PutUint32 v) = v := by
  simp only [PutUint32, leValue, Nat.shiftRight_eq_div_pow]
  omega

theorem leValue_PutUint64 (v : Nat) (hv : v < 2 ^ 64) : leValue (PutUint64 v) = v := by
  simp only [PutUint64, leValue, Nat.shiftRight_eq_div_pow]
  omega

theorem PutUint32_injective (v w : Nat) (hv : v < 2 ^ 32) (hw : w < 2 ^ 32)
    (h : PutUint32 v = PutUint32 w) : v = w := by
  rw [← leValue_PutUint32 v hv, ← leValue_PutUint32 w hw, h]

theorem PutUint64_injective (v w : Nat) (hv : v < 2 ^ 64) (hw : w < 2 ^ 64)
    (h : PutUint64 v = PutUint64 w) : v = w := by
  rw [← leValue_PutUint64 v hv, ← leValue_PutUint64 w hw, h]

theorem PutUint32_byte (v b : Nat) (hb : b ∈ PutUint32 v) : b < 256 := by
  simp only [PutUint32, List.mem_cons, List.mem_singleton, List.not_mem_nil, or_false] at hb
  omega

theorem PutUint64_byte (v b : Nat) (hb : b ∈ PutUint64 v) : b < 256 := by
  simp only [PutUint64, List.mem_cons, List.mem_singleton, List.not_mem_nil, or_false] at hb
  omega

/-! ## Strings -/

theorem String_Serialize_of_ne_nil (s : String) (h : s.Value ≠ []) :
    s.Serialize = .ok (PutUint32 (s.Value.length % 2 ^ 32) ++ s.Value) := by
  simp [String.Serialize, U32.Serialize, h]

theorem String_Serialize_of_nil (s : String) (h : s.Value = []) :
    s.Serialize = .error .stringIsNull := by
  simp [String.Serialize, h]

/-- C2: `String.Serialize` returns an error for the empty string; for a non-empty
string whose byte length is below `2^32` it returns the 4-byte little-endian
encoding of the byte length (four bytes, each below 256, standing for the
length) followed by the bytes of the string, `4 + len(s)` bytes in all. -/
theorem String_Serialize_spec (s : String) :
    (s.Value = [] → s.Serialize = .error .stringIsNull) ∧
    (s.Value ≠ [] → s.Value.length < 2 ^ 32 →
      s.Serialize = .ok (littleEndian 4 s.Value.length ++ s.Value) ∧
      (littleEndian 4 s.Value.length).length = 4 ∧
      (∀ b ∈ littleEndian 4 s.Value.length, b < 256) ∧
      leValue (littleEndian 4 s.Value.length) = s.Value.length ∧
      (littleEndian 4 s.Value.length ++ s.Value).length = 4 + s.Value.length) := by
  refine ⟨String_Serialize_of_nil s, fun hne hlen => ?_⟩
  rw [← PutUint32_eq_littleEndian]
  refine ⟨?_, rfl, PutUint32_byte _, leValue_PutUint32 _ hlen, ?_⟩
  · rw [String_Serialize_of_ne_nil s hne, Nat.mod_eq_of_lt hlen]
  · simp [PutUint32_length]

/-- C2 at the string `"ab"`, and at the empty string. -/
theorem String_Serialize_spec_witness :
    (String.Serialize ⟨[]⟩ = .error .stringIsNull) ∧
    (String.Serialize ⟨[97, 98]⟩ = .ok (littleEndian 4 2 ++ [97, 98]) ∧
      (littleEndian 4 2).length = 4 ∧
      (∀ b ∈ littleEndian 4 2, b < 256) ∧
      leValue (littleEndian 4 2) = 2 ∧
      (littleEndian 4 2 ++ [97, 98]).length = 4 + 2) :=
  ⟨(String_Serialize_spec ⟨[]⟩).1 rfl,
   (String_Serialize_spec ⟨[97, 98]⟩).2 (by decide) (by decide)⟩

/-! ## Fixed-width integers -/

/-- C4: `U8.Serialize`, `U32.Serialize` and `U64.Serialize` never fail and return
exactly 1, 4 and 8 bytes, the little-endian encoding of the value: the bytes
are below 256 and the sum of `byte[i] * 256^i` is the value. -/
theorem U8_U32_U64_Serialize_spec (v : Nat) :
    (v < 2 ^ 8 → ∃ data, U8.Serialize ⟨v⟩ = .ok data ∧ data = littleEndian 1 v ∧
      data.length = 1 ∧ (∀ b ∈ data, b < 256) ∧ leValue data = v) ∧
    (v < 2 ^ 32 → ∃ data, U32.Serialize ⟨v⟩ = .ok data ∧ data = littleEndian 4 v ∧
      data.length = 4 ∧ (∀ b ∈ data, b < 256) ∧ leValue data = v) ∧
    (v < 2 ^ 64 → ∃ data, U64.Serialize ⟨v⟩ = .ok data ∧ data = littleEndian 8 v ∧
      data.length = 8 ∧ (∀ b ∈ data, b < 256) ∧ leValue data = v) := by
  refine ⟨fun hv => ⟨[v], rfl, ?_, rfl, ?_, ?_⟩,
    fun hv => ⟨PutUint32 v, rfl, PutUint32_eq_littleEndian v, rfl, PutUint32_byte v,
      leValue_PutUint32 v hv⟩,
    fun hv => ⟨PutUint64 v, rfl, PutUint64_eq_littleEndian v, rfl, PutUint64_byte v,
      leValue_PutUint64 v hv⟩⟩
  · have h : v % 256 = v := Nat.mod_eq_of_lt hv
    simp [littleEndian, List.range_succ, h]
  · intro b hb
    rw [List.mem_singleton] at hb
    rw [hb]
    exact hv
  · simp [leValue]

/-- C4 at the value 200, which fits all three widths. -/
theorem U8_U32_U64_Serialize_spec_witness :
    (∃ data, U8.Serialize ⟨200⟩ = .ok data ∧ data = littleEndian 1 200 ∧
      data.length = 1 ∧ (∀ b ∈ data, b < 256) ∧ leValue data = 200) ∧
    (∃ data, U32.Serialize ⟨200⟩ = .ok data ∧ data = littleEndian 4 200 ∧
      data.length = 4 ∧ (∀ b ∈ data, b < 256) ∧ leValue data = 200) ∧
    (∃ data, U64.Serialize ⟨200⟩ = .ok data ∧ data = littleEndian 8 200 ∧
      data.length = 8 ∧ (∀ b ∈ data, b < 256) ∧ leValue data = 200) :=
  ⟨(U8_U32_U64_Serialize_spec 200).1 (by decide),
   (U8_U32_U64_Serialize_spec 200).2.1 (by decide),
   (U8_U32_U64_Serialize_spec 200).2.2 (by decide)⟩

/-! ## Fixed-size byte arrays -/

/-- C5: each fixed-size encoder fails if and only if the length of the value is
wrong.  `PublicKey.Serialize` fails iff `len(Value) != 32` and otherwise returns
the key-type byte followed by the 32 bytes (33 bytes); `Signature.Serialize`
fails iff `len(Value) != 64` and otherwise returns the key-type byte followed
by the 64 bytes (65 bytes); `BlockHash.Serialize` fails iff `len(Value) != 32`
and otherwise returns the 32 bytes unchanged. -/
theorem fixed_size_Serialize_spec (keyType : Nat) (value : List Byte) :
    (((∃ err, PublicKey.Serialize ⟨keyType, value⟩ = .error err) ↔ value.length ≠ 32) ∧
      (value.length = 32 →
        PublicKey.Serialize ⟨keyType, value⟩ = .ok (keyType :: value) ∧
        (keyType :: value).length = 33)) ∧
    (((∃ err, Signature.Serialize ⟨keyType, value⟩ = .error err) ↔ value.length ≠ 64) ∧
      (value.length = 64 →
        Signature.Serialize ⟨keyType, value⟩ = .ok (keyType :: value) ∧
        (keyType :: value).length = 65)) ∧
    (((∃ err, BlockHash.Serialize ⟨value⟩ = .error err) ↔ value.length ≠ 32) ∧
      (value.length = 32 → BlockHash.Serialize ⟨value⟩ = .ok value)) := by
  refine ⟨⟨?_, ?_⟩, ⟨?_, ?_⟩, ⟨?_, ?_⟩⟩
  · by_cases h : value.length = 32 <;> simp [PublicKey.Serialize, h]
  · intro h
    simp [PublicKey.Serialize, h]
  · by_cases h : value.length = 64 <;> simp [Signature.Serialize, h]
  · intro h
    simp [Signature.Serialize, h]
  · by_cases h : value.length = 32 <;> simp [BlockHash.Serialize, h]
  · intro h
    simp [BlockHash.Serialize, h]

/-- C5 for a 32-byte public key and block hash and a 64-byte signature. -/
theorem fixed_size_Serialize_spec_witness :
    (PublicKey.Serialize ⟨0, List.replicate 32 7⟩ = .ok (0 :: List.replicate 32 7) ∧
      (0 :: List.replicate 32 7).length = 33) ∧
    (Signature.Serialize ⟨0, List.replicate 64 7⟩ = .ok (0 :: List.replicate 64 7) ∧
      (0 :: List.replicate 64 7).length = 65) ∧
    BlockHash.Serialize ⟨List.replicate 32 7⟩ = .ok (List.replicate 32 7) :=
  ⟨(fixed_size_Serialize_spec 0 (List.replicate 32 7)).1.2 (by decide),
   (fixed_size_Serialize_spec 0 (List.replicate 64 7)).2.1.2 (by decide),
   (fixed_size_Serialize_spec 0 (List.replicate 32 7)).2.2.2 (by decide)⟩

end serialize

namespace utils

open serialize

/-! ## Big integers in a fixed number of bytes -/

theorem natBytes_reverse_getD (fuel : Nat) :
    ∀ n i, n ≤ fuel → (natBytes fuel n).reverse.getD i 0 = n / 256 ^ i % 256 := by
  induction fuel with
  | zero =>
    intro n i hn
    have h0 : n = 0 := by omega
    subst h0
    simp [natBytes]
  | succ fuel ih =>
    intro n i hn
    by_cases h0 : n = 0
    · subst h0
      simp [natBytes]
    · have hdiv : n / 256 ≤ fuel := by omega
      cases i with
      | zero => simp [natBytes, h0]
      | succ i =>
        simp only [natBytes, h0, if_false, List.reverse_append, List.reverse_singleton,
          List.singleton_append, List.getD_cons_succ]
        rw [ih (n / 256) i hdiv, Nat.div_div_eq_div_mul, pow_succ, Nat.mul_comm]

theorem natBytes_length_le (fuel : Nat) :
    ∀ n k, n ≤ fuel → ((natBytes fuel n).length ≤ k ↔ n < 256 ^ k) := by
  induction fuel with
  | zero =>
    intro n k hn
    have h0 : n = 0 := by omega
    subst h0
    simp [natBytes]
  | succ fuel ih =>
    intro n k hn
    by_cases h0 : n = 0
    · subst h0
      simp [natBytes]
    · have hdiv : n / 256 ≤ fuel := by omega
      simp only [natBytes, h0, if_false, List.length_append, List.length_singleton]
      cases k with
      | zero =>
        simp only [pow_zero]
        omega
      | succ k =>
        have := ih (n / 256) k hdiv
        rw [pow_succ, ← Nat.div_lt_iff_lt_mul (by decide : 0 < 256), ← this]
        omega

theorem getD_append_replicate_zero (l : List Nat) (k : Nat) :
    ∀ i, (l ++ List.replicate k 0).getD i 0 = l.getD i 0 := by
  induction l with
  | nil =>
    intro i
    by_cases hi : i < k
    · simp [List.getD_eq_getElem?_getD, List.getElem?_replicate, hi]
    · simp [List.getD_eq_getElem?_getD, List.getElem?_replicate, hi]
  | cons a l ih =>
    intro i
    cases i with
    | zero => simp
    | succ i => simpa using ih i

theorem BigIntToUintBytes_of_fits (n bytelen : Nat) (h : n < 256 ^ bytelen) :
    BigIntToUintBytes (n : Int) bytelen =
      .ok (List.replicate (bytelen - (natBytes n n).length) 0 ++ natBytes n n) := by
  have hlen : (natBytes n n).length ≤ bytelen := (natBytes_length_le n n bytelen le_rfl).2 h
  have hneg : ¬ ((n : Int) < 0) := by omega
  simp [BigIntToUintBytes, hneg, Nat.not_lt.2 hlen]

theorem BigIntToUintBytes_of_not_fits (n bytelen : Nat) (h : 256 ^ bytelen ≤ n) :
    BigIntToUintBytes (n : Int) bytelen = .error .bigIntDoesNotFit := by
  have hlen : ¬ (natBytes n n).length ≤ bytelen := by
    rw [natBytes_length_le n n bytelen le_rfl]
    omega
  have hneg : ¬ ((n : Int) < 0) := by omega
  simp [BigIntToUintBytes, hneg, Nat.lt_of_not_le hlen]

end utils

namespace serialize

/-! ## 128-bit integers -/

theorem U128_Serialize_of_fits (n : Nat) (h : n < 2 ^ 128) :
    ∃ data, U128.Serialize ⟨(n : Int)⟩ = .ok data ∧ data.length = 16 ∧
      ∀ i, data.getD i 0 = n / 256 ^ i % 256 := by
  have h256 : n < 256 ^ 16 := by
    have : (256 : Nat) ^ 16 = 2 ^ 128 := by norm_num
    omega
  have hlen : (utils.natBytes n n).length ≤ 16 :=
    (utils.natBytes_length_le n n 16 le_rfl).2 h256
  refine ⟨utils.Reverse
    (List.replicate (16 - (utils.natBytes n n).length) 0 ++ utils.natBytes n n), ?_, ?_, ?_⟩
  · simp only [U128.Serialize, utils.BigIntToUintBytes_of_fits n 16 h256]
  · simp only [utils.Reverse, List.length_reverse, List.length_append, List.length_replicate]
    omega
  · intro i
    simp only [utils.Reverse, List.reverse_append, List.reverse_replicate]
    rw [utils.getD_append_replicate_zero, utils.natBytes_reverse_getD n n i le_rfl]

/-- C3: for every integer `v` with `0 <= v < 2^128`, `U128.Serialize` returns
exactly 16 bytes, the little-endian representation of `v` (byte `i` holds
`(v / 256^i) mod 256`); for every `v >= 2^128` it returns an error. -/
theorem U128_Serialize_spec (v : Int) :
    (0 ≤ v → v < 2 ^ 128 →
      ∃ data, U128.Serialize ⟨v⟩ = .ok data ∧ data.length = 16 ∧
        ∀ i, i < 16 → ((data.getD i 0 : Nat) : Int) = v / 256 ^ i % 256) ∧
    (2 ^ 128 ≤ v → ∃ err, U128.Serialize ⟨v⟩ = .error err) := by
  constructor
  · intro h0 h1
    obtain ⟨n, rfl⟩ := Int.eq_ofNat_of_zero_le h0
    have hn : n < 2 ^ 128 := by exact_mod_cast h1
    obtain ⟨data, hd, hl, hb⟩ := U128_Serialize_of_fits n hn
    refine ⟨data, hd, hl, fun i _ => ?_⟩
    rw [hb i]
    simp only [Int.natCast_mod, Int.natCast_div, Nat.cast_pow, Nat.cast_ofNat]
  · intro h
    have h0 : 0 ≤ v := le_trans (by positivity) h
    obtain ⟨n, rfl⟩ := Int.eq_ofNat_of_zero_le h0
    have hn : 256 ^ 16 ≤ n := by
      have : (2 : Nat) ^ 128 ≤ n := by exact_mod_cast h
      have h2 : (256 : Nat) ^ 16 = 2 ^ 128 := by norm_num
      omega
    exact ⟨.bigIntDoesNotFit,
      by simp only [U128.Serialize, utils.BigIntToUintBytes_of_not_fits n 16 hn]⟩

/-- C3 at `v = 2^64 + 5`, which fits, and at `v = 2^128`, which does not. -/
theorem U128_Serialize_spec_witness :
    (∃ data, U128.Serialize ⟨2 ^ 64 + 5⟩ = .ok data ∧ data.length = 16 ∧
        ∀ i, i < 16 → ((data.getD i 0 : Nat) : Int) = (2 ^ 64 + 5) / 256 ^ i % 256) ∧
    (∃ err, U128.Serialize ⟨2 ^ 128⟩ = .error err) :=
  ⟨(U128_Serialize_spec (2 ^ 64 + 5)).1 (by norm_num) (by norm_num),
   (U128_Serialize_spec (2 ^ 128)).2 (by norm_num)⟩

/-! ## Function calls and transfers -/

theorem FunctionCall_Serialize_of_ne_nil (f : FunctionCall)
    (hm : f.MethodName.Value ≠ []) (hd : f.Deposit.Value ≠ []) :
    f.Serialize = .ok (f.Action ::
      (PutUint32 (f.MethodName.Value.length % 2 ^ 32) ++ f.MethodName.Value ++
        (f.Args ++ (PutUint64 f.Gas.Value ++
          (PutUint32 (f.Deposit.Value.length % 2 ^ 32) ++ f.Deposit.Value))))) := by
  simp [FunctionCall.Serialize, String_Serialize_of_ne_nil _ hm,
    String_Serialize_of_ne_nil _ hd, U64.Serialize]

theorem FunctionCall_Serialize_of_nil (f : FunctionCall)
    (h : f.MethodName.Value = [] ∨ f.Deposit.Value = []) :
    f.Serialize = .error .stringIsNull := by
  by_cases hm : f.MethodName.Value = []
  · simp [FunctionCall.Serialize, String_Serialize_of_nil _ hm]
  · have hd : f.Deposit.Value = [] := h.resolve_left hm
    simp [FunctionCall.Serialize, String_Serialize_of_ne_nil _ hm,
      String_Serialize_of_nil _ hd, U64.Serialize]

theorem FunctionCall_Serialize_ok (f : FunctionCall) (out : List Byte)
    (h : f.Serialize = .ok out) :
    out = f.Action ::
      (PutUint32 (f.MethodName.Value.length % 2 ^ 32) ++ f.MethodName.Value ++
        (f.Args ++ (PutUint64 f.Gas.Value ++
          (PutUint32 (f.Deposit.Value.length % 2 ^ 32) ++ f.Deposit.Value)))) := by
  by_cases hn : f.MethodName.Value = [] ∨ f.Deposit.Value = []
  · rw [FunctionCall_Serialize_of_nil f hn] at h
    cases h
  · rw [not_or] at hn
    rw [FunctionCall_Serialize_of_ne_nil f hn.1 hn.2] at h
    cases h
    rfl

/-- C1, as the code has it: `FunctionCall.Serialize` is injective on values whose
args have the same length.  For two `FunctionCall` values with method names
shorter than `2^32` bytes and gas below `2^64` that both serialize without
error to the same bytes and whose args byte strings have equal length, the two
values are equal field by field. -/
theorem FunctionCall_Serialize_injective_of_args_length (f g : FunctionCall)
    (out : List Byte) (hf : f.Serialize = .ok out) (hg : g.Serialize = .ok out)
    (hfm : f.MethodName.Value.length < 2 ^ 32) (hgm : g.MethodName.Value.length < 2 ^ 32)
    (hfg : f.Gas.Value < 2 ^ 64) (hgg : g.Gas.Value < 2 ^ 64)
    (hargs : f.Args.length = g.Args.length) : f = g := by
  have h1 := FunctionCall_Serialize_ok f out hf
  have h2 := FunctionCall_Serialize_ok g out hg
  rw [h1] at h2
  obtain ⟨fa, ⟨fm⟩, fargs, ⟨fg⟩, ⟨fd⟩⟩ := f
  obtain ⟨ga, ⟨gm⟩, gargs, ⟨gg⟩, ⟨gd⟩⟩ := g
  simp only at h2 hfm hgm hfg hgg hargs
  rw [Nat.mod_eq_of_lt hfm, Nat.mod_eq_of_lt hgm] at h2
  obtain ⟨ha, h2⟩ := List.cons.inj h2
  rw [List.append_assoc, List.append_assoc] at h2
  obtain ⟨hl, h2⟩ := List.append_inj h2 rfl
  have hlen : fm.length = gm.length := PutUint32_injective _ _ hfm hgm hl
  obtain ⟨hm, h2⟩ := List.append_inj h2 hlen
  obtain ⟨hargs', h2⟩ := List.append_inj h2 hargs
  obtain ⟨hgas, h2⟩ := List.append_inj h2 rfl
  obtain ⟨_, hd⟩ := List.append_inj h2 rfl
  have hgas' : fg = gg := PutUint64_injective _ _ hfg hgg hgas
  subst ha hm hargs' hgas' hd
  rfl

/-- C1 as amended, at the call with method `"ab"`, args `[1]`, gas 5 and deposit
`"0"` and its 21 bytes. -/
theorem FunctionCall_Serialize_injective_of_args_length_witness :
    FunctionCall.Serialize ⟨2, ⟨[97, 98]⟩, [1], ⟨5⟩, ⟨[48]⟩⟩ =
      .ok [2, 2, 0, 0, 0, 97, 98, 1, 5, 0, 0, 0, 0, 0, 0, 0, 1, 0, 0, 0, 48] ∧
    (⟨2, ⟨[97, 98]⟩, [1], ⟨5⟩, ⟨[48]⟩⟩ : FunctionCall) = ⟨2, ⟨[97, 98]⟩, [1], ⟨5⟩, ⟨[48]⟩⟩ :=
  ⟨by decide,
   FunctionCall_Serialize_injective_of_args_length
    ⟨2, ⟨[97, 98]⟩, [1], ⟨5⟩, ⟨[48]⟩⟩ ⟨2, ⟨[97, 98]⟩, [1], ⟨5⟩, ⟨[48]⟩⟩
    [2, 2, 0, 0, 0, 97, 98, 1, 5, 0, 0, 0, 0, 0, 0, 0, 1, 0, 0, 0, 48]
    (by decide) (by decide) (by decide) (by decide) (by decide) (by decide) (by decide)⟩

/-- C1 as stated fails: two `FunctionCall` values that differ in args, gas and
deposit serialize without error to the same bytes.  The args bytes are written
without a length prefix, so the bytes `[1,0,0,0,0,0,0,0,13,0,0,0]` are read
either as the gas 1 and the length 13 of the deposit, or as args. -/
theorem FunctionCall_Serialize_not_injective :
    FunctionCall.Serialize
        ⟨2, ⟨[97]⟩, [], ⟨1⟩, ⟨[2, 0, 0, 0, 0, 0, 0, 0, 1, 0, 0, 0, 98]⟩⟩ =
      .ok [2, 1, 0, 0, 0, 97, 1, 0, 0, 0, 0, 0, 0, 0, 13, 0, 0, 0,
        2, 0, 0, 0, 0, 0, 0, 0, 1, 0, 0, 0, 98] ∧
    FunctionCall.Serialize
        ⟨2, ⟨[97]⟩, [1, 0, 0, 0, 0, 0, 0, 0, 13, 0, 0, 0], ⟨2⟩, ⟨[98]⟩⟩ =
      .ok [2, 1, 0, 0, 0, 97, 1, 0, 0, 0, 0, 0, 0, 0, 13, 0, 0, 0,
        2, 0, 0, 0, 0, 0, 0, 0, 1, 0, 0, 0, 98] ∧
    (⟨2, ⟨[97]⟩, [], ⟨1⟩, ⟨[2, 0, 0, 0, 0, 0, 0, 0, 1, 0, 0, 0, 98]⟩⟩ : FunctionCall) ≠
      ⟨2, ⟨[97]⟩, [1, 0, 0, 0, 0, 0, 0, 0, 13, 0, 0, 0], ⟨2⟩, ⟨[98]⟩⟩ := by
  decide

theorem U128_Serialize_of_range (dec : Int) (h0 : 0 ≤ dec) (h1 : dec < 2 ^ 128) :
    ∃ v, U128.Serialize ⟨dec⟩ = .ok v ∧ v.length = 16 := by
  obtain ⟨n, rfl⟩ := Int.eq_ofNat_of_zero_le h0
  have hn : n < 2 ^ 128 := by exact_mod_cast h1
  obtain ⟨data, hd, hl, _⟩ := U128_Serialize_of_fits n hn
  exact ⟨data, hd, hl⟩

theorem Transfer_Serialize_of_ok (t : Transfer) (v : List Byte)
    (h : t.Value.Serialize = .ok v) : t.Serialize = .ok ([t.Action] ++ v) := by
  simp [Transfer.Serialize, h]

theorem Transfer_Serialize_of_error (t : Transfer) (err : Error)
    (h : t.Value.Serialize = .error err) : t.Serialize = .error err := by
  simp [Transfer.Serialize, h]

theorem U128_Serialize_of_not_fits (n : Nat) (h : 2 ^ 128 ≤ n) :
    U128.Serialize ⟨(n : Int)⟩ = .error .bigIntDoesNotFit := by
  have hn : 256 ^ 16 ≤ n := by
    have h2 : (256 : Nat) ^ 16 = 2 ^ 128 := by norm_num
    omega
  simp only [U128.Serialize, utils.BigIntToUintBytes_of_not_fits n 16 hn]

/-- C6, as the code has it: the eight action discriminants are numbered 0 to 7 in
declared order.  A `FunctionCall` built by
`CreateFuncCall(method, args, gas, deposit)` with non-empty method and
non-empty deposit serializes as the byte 2, then the `String` encoding of
method (its 4-byte little-endian length and its bytes), then the args bytes,
then the 8-byte little-endian gas, then the `String` encoding of deposit; it
fails if method or deposit is empty.  `CreateTransfer` returns the parse error
for an amount that does not parse and otherwise builds the `Transfer` with
discriminant 3 and the parsed amount; that `Transfer` serializes as the byte 3
followed by the 16-byte little-endian `U128` encoding of the amount when the
amount is in the range `0 <= amount < 2^128`, and `Serialize` returns the
error of the `U128` encoding whenever that encoding fails, as it does for
every amount of `2^128` or more. -/
theorem CreateFuncCall_CreateTransfer_Serialize_spec
    (method args : List Byte) (gas : Nat) (deposit : List Byte)
    (parseAmount : List Byte → Except Error Int) (amount : List Byte) :
    [CreateAccountAction, DeployContractAction, FunctionCallAction, TransferAction,
      StakeAction, AddKey, DeleteKey, DeleteAccount] = [0, 1, 2, 3, 4, 5, 6, 7] ∧
    (∃ f, CreateFuncCall method args gas deposit = .ok f) ∧
    (∀ f, CreateFuncCall method args gas deposit = .ok f →
      (method ≠ [] → deposit ≠ [] →
        ∃ m d, String.Serialize ⟨method⟩ = .ok m ∧ String.Serialize ⟨deposit⟩ = .ok d ∧
          m = littleEndian 4 (method.length % 2 ^ 32) ++ method ∧
          d = littleEndian 4 (deposit.length % 2 ^ 32) ++ deposit ∧
          f.Serialize = .ok ([2] ++ m ++ args ++ littleEndian 8 gas ++ d)) ∧
      (method = [] ∨ deposit = [] → ∃ err, f.Serialize = .error err)) ∧
    (∀ err, parseAmount amount = .error err →
      CreateTransfer parseAmount amount = .error err) ∧
    (∀ dec, parseAmount amount = .ok dec →
      CreateTransfer parseAmount amount = .ok ⟨3, ⟨dec⟩⟩ ∧
      (0 ≤ dec → dec < 2 ^ 128 →
        ∃ v, U128.Serialize ⟨dec⟩ = .ok v ∧ v.length = 16 ∧
          (∀ i, i < 16 → ((v.getD i 0 : Nat) : Int) = dec / 256 ^ i % 256) ∧
          Transfer.Serialize ⟨3, ⟨dec⟩⟩ = .ok ([3] ++ v)) ∧
      (∀ err, U128.Serialize ⟨dec⟩ = .error err →
        Transfer.Serialize ⟨3, ⟨dec⟩⟩ = .error err) ∧
      (2 ^ 128 ≤ dec → ∃ err, Transfer.Serialize ⟨3, ⟨dec⟩⟩ = .error err)) := by
  refine ⟨rfl, ⟨_, rfl⟩, ?_, ?_, ?_⟩
  · intro f hf
    simp only [CreateFuncCall, Except.ok.injEq] at hf
    subst hf
    refine ⟨?_, fun h => ⟨_, FunctionCall_Serialize_of_nil _ h⟩⟩
    intro hm hd
    refine ⟨_, _, String_Serialize_of_ne_nil ⟨method⟩ hm, String_Serialize_of_ne_nil ⟨deposit⟩ hd,
      by rw [PutUint32_eq_littleEndian], by rw [PutUint32_eq_littleEndian], ?_⟩
    rw [FunctionCall_Serialize_of_ne_nil _ hm hd, ← PutUint64_eq_littleEndian]
    simp [FunctionCallAction]
  · intro err hp
    simp [CreateTransfer, hp]
  · intro dec hp
    refine ⟨by simp [CreateTransfer, hp, TransferAction], ?_, ?_, ?_⟩
    · intro h0 h1
      obtain ⟨n, rfl⟩ := Int.eq_ofNat_of_zero_le h0
      have hn : n < 2 ^ 128 := by exact_mod_cast h1
      obtain ⟨v, hv, hl, hb⟩ := U128_Serialize_of_fits n hn
      refine ⟨v, hv, hl, fun i _ => ?_, Transfer_Serialize_of_ok _ v hv⟩
      rw [hb i]
      simp only [Int.natCast_mod, Int.natCast_div, Nat.cast_pow, Nat.cast_ofNat]
    · intro err herr
      exact Transfer_Serialize_of_error _ err herr
    · intro h
      have h0 : 0 ≤ dec := le_trans (by positivity) h
      obtain ⟨n, rfl⟩ := Int.eq_ofNat_of_zero_le h0
      have hn : (2 : Nat) ^ 128 ≤ n := by exact_mod_cast h
      exact ⟨.bigIntDoesNotFit,
        Transfer_Serialize_of_error _ _ (U128_Serialize_of_not_fits n hn)⟩

/-- C6 as amended, at `CreateFuncCall("ab", [1], 5, "0")` and at `CreateTransfer("7")`,
which builds the transfer of the amount 7: its serialization is the byte 3
followed by 16 bytes. -/
theorem CreateFuncCall_CreateTransfer_Serialize_spec_witness :
    (∃ m d, String.Serialize ⟨[97, 98]⟩ = .ok m ∧ String.Serialize ⟨[48]⟩ = .ok d ∧
        m = littleEndian 4 (2 % 2 ^ 32) ++ [97, 98] ∧
        d = littleEndian 4 (1 % 2 ^ 32) ++ [48] ∧
        FunctionCall.Serialize ⟨2, ⟨[97, 98]⟩, [1], ⟨5⟩, ⟨[48]⟩⟩ =
          .ok ([2] ++ m ++ [1] ++ littleEndian 8 5 ++ d)) ∧
    CreateTransfer sample.parseAmount [55] = .ok ⟨3, ⟨7⟩⟩ ∧
    (∃ v, U128.Serialize ⟨7⟩ = .ok v ∧ v.length = 16 ∧
      (∀ i, i < 16 → ((v.getD i 0 : Nat) : Int) = 7 / 256 ^ i % 256) ∧
      Transfer.Serialize ⟨3, ⟨7⟩⟩ = .ok ([3] ++ v)) :=
  ⟨((CreateFuncCall_CreateTransfer_Serialize_spec [97, 98] [1] 5 [48]
      sample.parseAmount [55]).2.2.1 ⟨2, ⟨[97, 98]⟩, [1], ⟨5⟩, ⟨[48]⟩⟩ rfl).1
      (by decide) (by decide),
   ((CreateFuncCall_CreateTransfer_Serialize_spec [97, 98] [1] 5 [48]
      sample.parseAmount [55]).2.2.2.2 7 rfl).1,
   ((CreateFuncCall_CreateTransfer_Serialize_spec [97, 98] [1] 5 [48]
      sample.parseAmount [55]).2.2.2.2 7 rfl).2.1 (by decide) (by norm_num)⟩

/-- C6 as stated fails: `CreateTransfer("340282366920938463463374607431768211456")`
returns without error the `Transfer` with discriminant 3 and the amount
`2^128`, and `Serialize` of that `Transfer` returns an error, not the byte 3
followed by 16 bytes. -/
theorem CreateTransfer_Serialize_fails_out_of_range :
    CreateTransfer sample.parseAmount
        [51, 52, 48, 50, 56, 50, 51, 54, 54, 57, 50, 48, 57, 51, 56, 52, 54, 51, 52, 54,
          51, 51, 55, 52, 54, 48, 55, 52, 51, 49, 55, 54, 56, 50, 49, 49, 52, 53, 54] =
      .ok ⟨3, ⟨2 ^ 128⟩⟩ ∧
    Transfer.Serialize ⟨3, ⟨2 ^ 128⟩⟩ = .error .bigIntDoesNotFit := by
  constructor
  · set_option maxRecDepth 8192 in decide
  · have h := U128_Serialize_of_not_fits (2 ^ 128) le_rfl
    exact Transfer_Serialize_of_error ⟨3, ⟨2 ^ 128⟩⟩ _ (by exact_mod_cast h)

end serialize

namespace bridge

/-! ## The dispatcher -/

theorem Uint64_neg_natCast (n : Nat) (h : n < 2 ^ 64) : Uint64 (-(n : Int)) = n := by
  unfold Uint64
  rw [Int.natAbs_neg, Int.natAbs_ofNat, Nat.mod_eq_of_lt h]

theorem Uint64_natCast_add (n : Nat) (h : n < 2 ^ 64) : Uint64 ((n : Int) + 2 ^ 64) = n := by
  have : ((n : Int) + 2 ^ 64).natAbs = n + 2 ^ 64 := by omega
  unfold Uint64
  rw [this, Nat.add_mod_right, Nat.mod_eq_of_lt h]

/-- What the dispatcher does once the Tron `switch` has not matched: the Ripple
predicate is tried first, then the Near predicate, then the sign, and a
positive identifier that passes none of them gets the default `eth` bridge. -/
theorem NewCrossChainBridge_of_no_tron_match (p : Packages) (chainID : Int)
    (h1 : Uint64 chainID ≠ p.TronMainnetChainID) (h2 : Uint64 chainID ≠ p.TronShastaChainID) :
    (p.rippleSupportsChainID chainID = true →
      NewCrossChainBridge p chainID = .returned .ripple) ∧
    (p.rippleSupportsChainID chainID = false → p.nearSupportsChainID chainID = true →
      NewCrossChainBridge p chainID = .returned .near) ∧
    (p.rippleSupportsChainID chainID = false → p.nearSupportsChainID chainID = false →
      (chainID ≤ 0 → NewCrossChainBridge p chainID = .fatal) ∧
      (0 < chainID → NewCrossChainBridge p chainID = .returned .eth)) := by
  refine ⟨fun hr => ?_, fun hr hn => ?_, fun hr hn => ⟨fun hs => ?_, fun hs => ?_⟩⟩
  · simp [NewCrossChainBridge, h1, h2, hr]
  · simp [NewCrossChainBridge, h1, h2, hr, hn]
  · have : chainID.sign ≤ 0 := by
      rcases lt_or_eq_of_le hs with h | h
      · rw [Int.sign_eq_neg_one_of_neg h]
        decide
      · rw [h]
        decide
    simp [NewCrossChainBridge, h1, h2, hr, hn, this]
  · have : ¬ chainID.sign ≤ 0 := by
      rw [Int.sign_eq_one_of_pos hs]
      decide
    simp [NewCrossChainBridge, h1, h2, hr, hn, this]

/-- C7, the code at the failing input: whatever the value of the `uint64`
constant `TronMainnetChainID`, the identifier `-TronMainnetChainID` is zero or
negative and the dispatcher returns the Tron bridge for it, not the fatal
path: `chainID.Uint64()` drops the sign before the Tron `switch`. -/
theorem NewCrossChainBridge_nonpositive_returns_tron (p : Packages)
    (h : p.TronMainnetChainID < 2 ^ 64) :
    -(p.TronMainnetChainID : Int) ≤ 0 ∧
    NewCrossChainBridge p (-(p.TronMainnetChainID : Int)) = .returned .tron := by
  refine ⟨by omega, ?_⟩
  unfold NewCrossChainBridge
  rw [if_pos (Or.inl (Uint64_neg_natCast _ h))]

/-- C7 at the sample constants 112233 and 2494104990 with predicates that hold
for no identifier. -/
theorem NewCrossChainBridge_nonpositive_returns_tron_witness :
    -((112233 : Nat) : Int) ≤ 0 ∧
    NewCrossChainBridge ⟨112233, 2494104990, fun _ => false, fun _ => false⟩
      (-((112233 : Nat) : Int)) = .returned .tron :=
  NewCrossChainBridge_nonpositive_returns_tron
    ⟨112233, 2494104990, fun _ => false, fun _ => false⟩ (by decide)

/-- C8, the code at the failing input: whatever the values of the two `uint64`
Tron constants, the identifier `TronShastaChainID + 2^64` is equal to neither
of them and the dispatcher returns the Tron bridge for it: `chainID.Uint64()`
keeps only the low 64 bits before the Tron `switch`. -/
theorem NewCrossChainBridge_tron_for_other_identifier (p : Packages)
    (h1 : p.TronMainnetChainID < 2 ^ 64) (h2 : p.TronShastaChainID < 2 ^ 64) :
    ((p.TronShastaChainID : Int) + 2 ^ 64 ≠ (p.TronMainnetChainID : Int)) ∧
    ((p.TronShastaChainID : Int) + 2 ^ 64 ≠ (p.TronShastaChainID : Int)) ∧
    NewCrossChainBridge p ((p.TronShastaChainID : Int) + 2 ^ 64) = .returned .tron := by
  refine ⟨by omega, by omega, ?_⟩
  unfold NewCrossChainBridge
  rw [if_pos (Or.inr (Uint64_natCast_add _ h2))]

/-- C8 at the sample constants 112233 and 2494104990 with predicates that hold
for no identifier. -/
theorem NewCrossChainBridge_tron_for_other_identifier_witness :
    (((2494104990 : Nat) : Int) + 2 ^ 64 ≠ ((112233 : Nat) : Int)) ∧
    (((2494104990 : Nat) : Int) + 2 ^ 64 ≠ ((2494104990 : Nat) : Int)) ∧
    NewCrossChainBridge ⟨112233, 2494104990, fun _ => false, fun _ => false⟩
      (((2494104990 : Nat) : Int) + 2 ^ 64) = .returned .tron :=
  NewCrossChainBridge_tron_for_other_identifier
    ⟨112233, 2494104990, fun _ => false, fun _ => false⟩ (by decide) (by decide)

/-- C9, the code at the failing input: whatever the values `m` and `s` of the two
`uint64` Tron constants, and with Ripple and Near predicates that hold for no
identifier, the identifier `m + 2^64` is positive and is not a Tron
identifier, yet the dispatcher returns the Tron bridge for it and not the
default `eth` bridge. -/
theorem NewCrossChainBridge_positive_not_default (m s : Nat)
    (h1 : m < 2 ^ 64) (h2 : s < 2 ^ 64) :
    (0 < (m : Int) + 2 ^ 64) ∧
    ((m : Int) + 2 ^ 64 ≠ (m : Int)) ∧
    ((m : Int) + 2 ^ 64 ≠ (s : Int)) ∧
    NewCrossChainBridge ⟨m, s, fun _ => false, fun _ => false⟩ ((m : Int) + 2 ^ 64) =
      .returned .tron := by
  refine ⟨by omega, by omega, by omega, ?_⟩
  unfold NewCrossChainBridge
  rw [if_pos (Or.inl (Uint64_natCast_add _ h1))]

/-- C9 at the sample constants 112233 and 2494104990. -/
theorem NewCrossChainBridge_positive_not_default_witness :
    (0 < ((112233 : Nat) : Int) + 2 ^ 64) ∧
    (((112233 : Nat) : Int) + 2 ^ 64 ≠ ((112233 : Nat) : Int)) ∧
    (((112233 : Nat) : Int) + 2 ^ 64 ≠ ((2494104990 : Nat) : Int)) ∧
    NewCrossChainBridge ⟨112233, 2494104990, fun _ => false, fun _ => false⟩
      (((112233 : Nat) : Int) + 2 ^ 64) = .returned .tron :=
  NewCrossChainBridge_positive_not_default 112233 2494104990 (by decide) (by decide)

end bridge

namespace near

open tokens

/-! ## The transaction status check -/

/-- What the status check does with `allowUnstable = false`, a non-failure
status, both height queries succeeding and the confirmation depth met: the
height compared with `InitialHeight` is the latest height of the chain. -/
theorem checkTxStatus_of_stable (b : Bridge) (txres : TransactionResult)
    (lastHeight txHeight : Nat) (hs : txres.Status.Failure = false)
    (hl : b.GetLatestBlockNumber = .ok lastHeight)
    (ht : b.GetBlockNumberByHash txres.TransactionOutcome.BlockHash = .ok txHeight)
    (hc : ¬ lastHeight < (txHeight + b.ChainConfig.Confirmations) % 2 ^ 64) :
    (lastHeight < b.ChainConfig.InitialHeight →
      checkTxStatus b txres false = some .ErrTxBeforeInitialHeight) ∧
    (¬ lastHeight < b.ChainConfig.InitialHeight → checkTxStatus b txres false = none) := by
  constructor
  · intro h
    simp only [checkTxStatus, hs, hl, ht, Bool.not_false, Bool.false_eq_true, if_false,
      if_true, if_neg hc, if_pos h]
  · intro h
    simp only [checkTxStatus, hs, hl, ht, Bool.not_false, Bool.false_eq_true, if_false,
      if_true, if_neg hc, if_neg h]

/-- C10, the code at the failing input: latest height 100, the transaction in a
block of height 5, 10 confirmations required and `InitialHeight = 50`.  The
confirmation depth is met (`100 >= 5 + 10`) and the height of the transaction
is below `InitialHeight` (`5 < 50`), yet `checkTxStatus` returns no error: it
compares the latest height, not the height of the transaction, with
`InitialHeight`. -/
theorem checkTxStatus_tx_before_initial_height_accepted :
    (5 + 10 ≤ 100 ∧ 5 < 50) ∧
    checkTxStatus
      { ChainConfig := { Confirmations := 10, InitialHeight := 50 }
        GetLatestBlockNumber := .ok 100
        GetBlockNumberByHash := fun _ => .ok 5 }
      { Status := { Failure := false }, TransactionOutcome := { BlockHash := "h" } }
      false = none := by
  decide

/-- C11, as the code has it: with `allowUnstable = false`, a non-failure status and
both height queries succeeding, `checkTxStatus` returns `ErrTxNotStable` for
all values of latest height, transaction height and required confirmations
such that `txHeight + requiredConfirmations` stays in the 64-bit range and
`latest < txHeight + requiredConfirmations`; a failure status returns
`ErrTxIsNotValidated` whatever `allowUnstable` and whatever the bridge would
answer to the height queries.  In general the result is `ErrTxNotStable` if
and only if `latest` is below the sum taken modulo `2^64`. -/
theorem checkTxStatus_not_stable (b : Bridge) (txres : TransactionResult) :
    (∀ lastHeight txHeight, txres.Status.Failure = false →
      b.GetLatestBlockNumber = .ok lastHeight →
      b.GetBlockNumberByHash txres.TransactionOutcome.BlockHash = .ok txHeight →
      txHeight + b.ChainConfig.Confirmations < 2 ^ 64 →
      lastHeight < txHeight + b.ChainConfig.Confirmations →
      checkTxStatus b txres false = some .ErrTxNotStable) ∧
    (txres.Status.Failure = true →
      ∀ (b' : Bridge) (allowUnstable : Bool),
        checkTxStatus b' txres allowUnstable = some .ErrTxIsNotValidated) ∧
    (∀ lastHeight txHeight, txres.Status.Failure = false →
      b.GetLatestBlockNumber = .ok lastHeight →
      b.GetBlockNumberByHash txres.TransactionOutcome.BlockHash = .ok txHeight →
      (checkTxStatus b txres false = some .ErrTxNotStable ↔
        lastHeight < (txHeight + b.ChainConfig.Confirmations) % 2 ^ 64)) := by
  refine ⟨?_, ?_, ?_⟩
  · intro lastHeight txHeight hs hl ht hfit hlt
    have hlt' : lastHeight < (txHeight + b.ChainConfig.Confirmations) % 2 ^ 64 := by
      rw [Nat.mod_eq_of_lt hfit]
      exact hlt
    simp only [checkTxStatus, hs, hl, ht, Bool.not_false, Bool.false_eq_true, if_false,
      if_true, if_pos hlt']
  · intro hs b' allowUnstable
    simp only [checkTxStatus, hs, if_true]
  · intro lastHeight txHeight hs hl ht
    by_cases hlt : lastHeight < (txHeight + b.ChainConfig.Confirmations) % 2 ^ 64
    · refine ⟨fun _ => hlt, fun _ => ?_⟩
      simp only [checkTxStatus, hs, hl, ht, Bool.not_false, Bool.false_eq_true, if_false,
        if_true, if_pos hlt]
    · have h := checkTxStatus_of_stable b txres lastHeight txHeight hs hl ht hlt
      by_cases hi : lastHeight < b.ChainConfig.InitialHeight
      · rw [h.1 hi]
        simp only [iff_false_right hlt]
        intro hc
        cases hc
      · rw [h.2 hi]
        simp only [iff_false_right hlt]
        intro hc
        cases hc

/-- C11 as amended, at latest height 12, transaction height 5 and 10 confirmations,
and at a failed transaction. -/
theorem checkTxStatus_not_stable_witness :
    checkTxStatus
      { ChainConfig := { Confirmations := 10, InitialHeight := 0 }
        GetLatestBlockNumber := .ok 12
        GetBlockNumberByHash := fun _ => .ok 5 }
      { Status := { Failure := false }, TransactionOutcome := { BlockHash := "h" } }
      false = some .ErrTxNotStable ∧
    (∀ (b' : Bridge) (allowUnstable : Bool),
      checkTxStatus b'
        { Status := { Failure := true }, TransactionOutcome := { BlockHash := "h" } }
        allowUnstable = some .ErrTxIsNotValidated) :=
  ⟨(checkTxStatus_not_stable
      { ChainConfig := { Confirmations := 10, InitialHeight := 0 }
        GetLatestBlockNumber := .ok 12
        GetBlockNumberByHash := fun _ => .ok 5 }
      { Status := { Failure := false }, TransactionOutcome := { BlockHash := "h" } }).1
      12 5 rfl rfl rfl (by decide) (by decide),
   (checkTxStatus_not_stable
      { ChainConfig := { Confirmations := 10, InitialHeight := 0 }
        GetLatestBlockNumber := .ok 12
        GetBlockNumberByHash := fun _ => .ok 5 }
      { Status := { Failure := true }, TransactionOutcome := { BlockHash := "h" } }).2.1 rfl⟩

/-- C11 as stated fails: latest height 100, transaction height `2^64 - 10` and 20
required confirmations are unsigned 64-bit values with
`latest < txHeight + requiredConfirmations` as exact integers, yet
`checkTxStatus` returns no error and not `ErrTxNotStable`: the `uint64` sum
wraps around to 10. -/
theorem checkTxStatus_confirmation_sum_wraps :
    (100 < 2 ^ 64 ∧ 2 ^ 64 - 10 < 2 ^ 64 ∧ 20 < 2 ^ 64 ∧ 100 < (2 ^ 64 - 10) + 20) ∧
    checkTxStatus
      { ChainConfig := { Confirmations := 20, InitialHeight := 0 }
        GetLatestBlockNumber := .ok 100
        GetBlockNumberByHash := fun _ => .ok (2 ^ 64 - 10) }
      { Status := { Failure := false }, TransactionOutcome := { BlockHash := "h" } }
      false = none := by
  decide

/-! ## The swap-out event -/

theorem isSwapOutLog_iff (log : String) :
    isSwapOutLog log = true ↔ (Fields log).length = 13 ∧ (Fields log).head? = some logFile := by
  simp [isSwapOutLog]

theorem fliterEvent_cons (log : String) (logs : List String) :
    fliterEvent (log :: logs) =
      if isSwapOutLog log = true then .ok (Fields log) else fliterEvent logs := by
  by_cases h : isSwapOutLog log = true
  · have h' := (isSwapOutLog_iff log).1 h
    simp only [fliterEvent, h, if_true]
    rw [if_pos h']
  · have h' : ¬ ((Fields log).length = 13 ∧ (Fields log).head? = some logFile) :=
      fun hc => h ((isSwapOutLog_iff log).2 hc)
    simp only [fliterEvent, h]
    rw [if_neg h']
    simp

theorem fliterEvent_error_iff (logs : List String) :
    (∃ err, fliterEvent logs = .error err) ↔ ∀ log ∈ logs, isSwapOutLog log = false := by
  induction logs with
  | nil => simp [fliterEvent]
  | cons log logs ih =>
    rw [fliterEvent_cons]
    by_cases h : isSwapOutLog log = true
    · simp [h]
    · have h' : isSwapOutLog log = false := by simpa using h
      simp only [h', Bool.false_eq_true, if_false, List.mem_cons, forall_eq_or_imp, true_and]
      exact ih

theorem fliterEvent_of_find (logs : List String) (log : String)
    (h : logs.find? isSwapOutLog = some log) : fliterEvent logs = .ok (Fields log) := by
  induction logs with
  | nil => simp at h
  | cons l logs ih =>
    rw [fliterEvent_cons]
    by_cases hl : isSwapOutLog l = true
    · simp only [List.find?, hl, Option.some.injEq] at h
      subst h
      simp [hl]
    · have hl' : isSwapOutLog l = false := by simpa using hl
      simp only [List.find?, hl'] at h
      simp [hl', ih h]

/-- C12, as the code has it: `fliterEvent` returns an error (the log-parse error) if
and only if no log line in the list splits on white space into exactly 13
fields whose first field is the tag `LogSwapOut`; otherwise it returns the 13
fields of the first matching line in list order, however many lines match. -/
theorem fliterEvent_spec (logs : List String) :
    ((∃ err, fliterEvent logs = .error err) ↔
      ∀ log ∈ logs, ¬ ((Fields log).length = 13 ∧ (Fields log).head? = some logFile)) ∧
    ((∃ err, fliterEvent logs = .error err) → fliterEvent logs = .error .errTxLogParse) ∧
    (∀ log, logs.find? isSwapOutLog = some log →
      fliterEvent logs = .ok (Fields log) ∧ (Fields log).length = 13 ∧
        (Fields log).head? = some logFile) := by
  refine ⟨?_, ?_, ?_⟩
  · rw [fliterEvent_error_iff]
    constructor
    · intro h log hlog hc
      have := h log hlog
      rw [(isSwapOutLog_iff log).2 hc] at this
      cases this
    · intro h log hlog
      cases hb : isSwapOutLog log with
      | false => rfl
      | true => exact absurd ((isSwapOutLog_iff log).1 hb) (h log hlog)
  · intro h
    induction logs with
    | nil => rfl
    | cons l logs ih =>
      rw [fliterEvent_cons] at h ⊢
      by_cases hl : isSwapOutLog l = true
      · simp [hl] at h
      · simp only [hl, if_false] at h ⊢
        exact ih h
  · intro log h
    have hm := List.find?_some h
    exact ⟨fliterEvent_of_find logs log h, (isSwapOutLog_iff log).1 hm⟩

/-- C12 as amended, at a list of a line that does not match followed by a line
that does. -/
theorem fliterEvent_spec_witness :
    fliterEvent ["storage deposit",
        "LogSwapOut token usdt.near sender alice.near receiver 0xabc amount 100 from_chain_id 1 to_chain_id 56"] =
      .ok (Fields
        "LogSwapOut token usdt.near sender alice.near receiver 0xabc amount 100 from_chain_id 1 to_chain_id 56") ∧
    (Fields
      "LogSwapOut token usdt.near sender alice.near receiver 0xabc amount 100 from_chain_id 1 to_chain_id 56").length
      = 13 ∧
    (Fields
      "LogSwapOut token usdt.near sender alice.near receiver 0xabc amount 100 from_chain_id 1 to_chain_id 56").head?
      = some logFile :=
  (fliterEvent_spec ["storage deposit",
      "LogSwapOut token usdt.near sender alice.near receiver 0xabc amount 100 from_chain_id 1 to_chain_id 56"]).2.2
    "LogSwapOut token usdt.near sender alice.near receiver 0xabc amount 100 from_chain_id 1 to_chain_id 56"
    (by decide)

/-- C12 as stated fails: with two log lines that both match the schema,
`fliterEvent` succeeds (and returns the fields of the first). -/
theorem fliterEvent_succeeds_with_two_matches :
    (List.filter isSwapOutLog
      ["LogSwapOut token usdt.near sender alice.near receiver 0xabc amount 100 from_chain_id 1 to_chain_id 56",
       "LogSwapOut token usdt.near sender bob.near receiver 0xdef amount 7 from_chain_id 1 to_chain_id 56"]).length
      = 2 ∧
    fliterEvent
      ["LogSwapOut token usdt.near sender alice.near receiver 0xabc amount 100 from_chain_id 1 to_chain_id 56",
       "LogSwapOut token usdt.near sender bob.near receiver 0xdef amount 7 from_chain_id 1 to_chain_id 56"] =
      .ok ["LogSwapOut", "token", "usdt.near", "sender", "alice.near", "receiver", "0xabc",
        "amount", "100", "from_chain_id", "1", "to_chain_id", "56"] := by
  decide

/-! ## Parsing and checking the swap-out -/

theorem EqualFold_self (lib : Libraries) (s : String) : EqualFold lib s s = true := by
  simp [EqualFold]

theorem checkSwapoutInfo_of_EqualFold (lib : Libraries) (r : router.Lookups) (b : Bridge)
    (swapInfo : SwapTxInfo) (h : EqualFold lib swapInfo.From swapInfo.To = true) :
    checkSwapoutInfo lib r b swapInfo = some .ErrTxWithWrongSender := by
  simp [checkSwapoutInfo, h]

theorem parseNep141SwapoutTxEvent_of_fields (lib : Libraries) (b : Bridge)
    (swapInfo : SwapTxInfo) (event : List String)
    (token sender bind amountStr chainStr : String) (amount toChainID : Int)
    (tokenCfg : TokenConfig)
    (h2 : event[2]? = some token) (h4 : event[4]? = some sender) (h6 : event[6]? = some bind)
    (h8 : event[8]? = some amountStr) (h12 : event[12]? = some chainStr)
    (ha : lib.GetBigIntFromStr amountStr = .ok amount)
    (hc : lib.GetBigIntFromStr chainStr = .ok toChainID)
    (ht : b.GetTokenConfig token = some tokenCfg) :
    parseNep141SwapoutTxEvent lib b swapInfo event =
      some ({ swapInfo with
        ERC20SwapInfo := { swapInfo.ERC20SwapInfo with Token := token, TokenID := tokenCfg.TokenID }
        From := sender
        To := b.GetRouterContract token
        Bind := bind
        Value := some amount
        ToChainID := some toChainID }, none) := by
  simp [parseNep141SwapoutTxEvent, h2, h4, h6, h8, h12, ha, hc, ht]

/-- C13, as the code has it: for every matched swap-out log that parses (fields 8
and 12 are numeric and the token has a `TokenConfig`) and whose sender field
(position 4) equals the deposit/router contract address resolved for the
parsed token, verification returns `ErrTxWithWrongSender`; in
`checkSwapoutInfo` the sender check comes first, so a swap info whose sender
equals its deposit address gets `ErrTxWithWrongSender` whatever the token
configuration, the router lookups and the library checks would yield. -/
theorem self_swap_rejected (lib : Libraries) (r : router.Lookups) (b : Bridge) :
    (∀ swapInfo : SwapTxInfo, swapInfo.From = swapInfo.To →
      checkSwapoutInfo lib r b swapInfo = some .ErrTxWithWrongSender) ∧
    (∀ (txHash : String) (logIndex : Int) (allowUnstable : Bool) (txres : TransactionResult)
      (event : List String) (token sender bind amountStr chainStr : String)
      (amount toChainID : Int) (tokenCfg : TokenConfig),
      b.GetTransaction txHash = .ok (.TransactionResult txres) →
      checkTxStatus b txres allowUnstable = none →
      fliterEvent (fliterReceipts txres.ReceiptsOutcome b.ChainConfig.RouterContract) =
        .ok event →
      event[2]? = some token → event[4]? = some sender → event[6]? = some bind →
      event[8]? = some amountStr → event[12]? = some chainStr →
      lib.GetBigIntFromStr amountStr = .ok amount →
      lib.GetBigIntFromStr chainStr = .ok toChainID →
      b.GetTokenConfig token = some tokenCfg →
      sender = b.GetRouterContract token →
      (verifySwapoutTx lib r b txHash logIndex allowUnstable).map Prod.snd =
        some (some .ErrTxWithWrongSender)) := by
  constructor
  · intro swapInfo h
    apply checkSwapoutInfo_of_EqualFold
    rw [h]
    exact EqualFold_self lib _
  · intro txHash logIndex allowUnstable txres event token sender bind amountStr chainStr
      amount toChainID tokenCfg hg hs hf h2 h4 h6 h8 h12 ha hc ht hsender
    simp only [verifySwapoutTx, hg, hs, hf]
    rw [parseNep141SwapoutTxEvent_of_fields lib b _ event token sender bind amountStr chainStr
      amount toChainID tokenCfg h2 h4 h6 h8 h12 ha hc ht]
    simp only
    rw [checkSwapoutInfo_of_EqualFold]
    · rfl
    · simp only [hsender]
      exact EqualFold_self lib _

/-- C13 as amended, at a transaction in which the router contract `router.near`
logged a swap-out of 100 `usdt.near` sent by `router.near` itself. -/
theorem self_swap_rejected_witness :
    checkSwapoutInfo sample.lib sample.lookups (sample.nearBridge [sample.selfSwapLog])
      { From := "router.near", To := "router.near" } = some .ErrTxWithWrongSender ∧
    (verifySwapoutTx sample.lib sample.lookups (sample.nearBridge [sample.selfSwapLog])
      "tx" 0 false).map Prod.snd = some (some .ErrTxWithWrongSender) :=
  ⟨(self_swap_rejected sample.lib sample.lookups (sample.nearBridge [sample.selfSwapLog])).1
      { From := "router.near", To := "router.near" } rfl,
   (self_swap_rejected sample.lib sample.lookups (sample.nearBridge [sample.selfSwapLog])).2
      "tx" 0 false
      { Status := { Failure := false }
        TransactionOutcome := { BlockHash := "h" }
        ReceiptsOutcome :=
          [{ Outcome := { ExecutorID := "router.near", Logs := [sample.selfSwapLog] } }] }
      ["LogSwapOut", "token", "usdt.near", "sender", "router.near", "receiver", "0xabc",
        "amount", "100", "from_chain_id", "1", "to_chain_id", "56"]
      "usdt.near" "router.near" "0xabc" "100" "56" 100 56 { TokenID := "USDT", Decimals := 6 }
      rfl (by decide) (by decide) rfl rfl rfl rfl rfl (by decide) (by decide) rfl rfl⟩

/-- C13 as stated fails: the router contract logged a swap-out line that matches
the schema and whose sender field is the router contract itself, but whose
amount field is no number; verification returns the error of the number
parser and not `ErrTxWithWrongSender`, since the fields are parsed before the
sender is checked. -/
theorem self_swap_log_not_rejected_as_wrong_sender :
    fliterEvent [sample.selfSwapLogBadAmount] = .ok (Fields sample.selfSwapLogBadAmount) ∧
    (Fields sample.selfSwapLogBadAmount)[4]? =
      some ((sample.nearBridge [sample.selfSwapLogBadAmount]).GetRouterContract "usdt.near") ∧
    (verifySwapoutTx sample.lib sample.lookups
      (sample.nearBridge [sample.selfSwapLogBadAmount]) "tx" 0 false).map Prod.snd =
      some (some (.New "invalid number")) := by
  decide

/-- C14, as the code has it: `checkSwapoutInfo` returns no error if and only if all
of the following hold: sender and deposit address differ even when letter case
is ignored (`strings.EqualFold` is false), the origin `TokenConfig` exists and
the token identifier is non-empty, a multichain token mapping exists for the
destination chain, the destination bridge exists, the destination
`TokenConfig` exists, `CheckTokenSwapValue` accepts the value for the two
decimal precisions, and the destination bridge accepts the bind address;
otherwise the error is that of the first failing check in this order
(`ErrTxWithWrongSender`, `ErrMissTokenConfig`, `ErrMissTokenConfig`,
`ErrNoBridgeForChainID`, `ErrMissTokenConfig`, `ErrTxWithWrongValue`,
`ErrWrongBindAddress`). -/
theorem checkSwapoutInfo_spec (lib : Libraries) (r : router.Lookups) (b : Bridge)
    (swapInfo : SwapTxInfo) :
    (checkSwapoutInfo lib r b swapInfo = none ↔
      EqualFold lib swapInfo.From swapInfo.To = false ∧
      ∃ fromTokenCfg toBridge toTokenCfg,
        b.GetTokenConfig swapInfo.ERC20SwapInfo.Token = some fromTokenCfg ∧
        swapInfo.ERC20SwapInfo.TokenID ≠ "" ∧
        r.GetCachedMultichainToken swapInfo.ERC20SwapInfo.TokenID
          (bigString swapInfo.ToChainID) ≠ "" ∧
        r.GetBridgeByChainID (bigString swapInfo.ToChainID) = some toBridge ∧
        toBridge.GetTokenConfig (r.GetCachedMultichainToken swapInfo.ERC20SwapInfo.TokenID
          (bigString swapInfo.ToChainID)) = some toTokenCfg ∧
        lib.CheckTokenSwapValue swapInfo fromTokenCfg.Decimals toTokenCfg.Decimals = true ∧
        toBridge.IsValidAddress swapInfo.Bind = true) ∧
    (EqualFold lib swapInfo.From swapInfo.To = true →
      checkSwapoutInfo lib r b swapInfo = some .ErrTxWithWrongSender) ∧
    (EqualFold lib swapInfo.From swapInfo.To = false →
      ((b.GetTokenConfig swapInfo.ERC20SwapInfo.Token = none ∨
          swapInfo.ERC20SwapInfo.TokenID = "") →
        checkSwapoutInfo lib r b swapInfo = some .ErrMissTokenConfig) ∧
      ∀ fromTokenCfg, b.GetTokenConfig swapInfo.ERC20SwapInfo.Token = some fromTokenCfg →
        swapInfo.ERC20SwapInfo.TokenID ≠ "" →
        (r.GetCachedMultichainToken swapInfo.ERC20SwapInfo.TokenID
            (bigString swapInfo.ToChainID) = "" →
          checkSwapoutInfo lib r b swapInfo = some .ErrMissTokenConfig) ∧
        (r.GetCachedMultichainToken swapInfo.ERC20SwapInfo.TokenID
            (bigString swapInfo.ToChainID) ≠ "" →
          (r.GetBridgeByChainID (bigString swapInfo.ToChainID) = none →
            checkSwapoutInfo lib r b swapInfo = some .ErrNoBridgeForChainID) ∧
          ∀ toBridge, r.GetBridgeByChainID (bigString swapInfo.ToChainID) = some toBridge →
            (toBridge.GetTokenConfig (r.GetCachedMultichainToken
                swapInfo.ERC20SwapInfo.TokenID (bigString swapInfo.ToChainID)) = none →
              checkSwapoutInfo lib r b swapInfo = some .ErrMissTokenConfig) ∧
            ∀ toTokenCfg, toBridge.GetTokenConfig (r.GetCachedMultichainToken
                swapInfo.ERC20SwapInfo.TokenID (bigString swapInfo.ToChainID)) =
                some toTokenCfg →
              (lib.CheckTokenSwapValue swapInfo fromTokenCfg.Decimals toTokenCfg.Decimals =
                  false →
                checkSwapoutInfo lib r b swapInfo = some .ErrTxWithWrongValue) ∧
              (lib.CheckTokenSwapValue swapInfo fromTokenCfg.Decimals toTokenCfg.Decimals =
                  true →
                (toBridge.IsValidAddress swapInfo.Bind = false →
                  checkSwapoutInfo lib r b swapInfo = some .ErrWrongBindAddress) ∧
                (toBridge.IsValidAddress swapInfo.Bind = true →
                  checkSwapoutInfo lib r b swapInfo = none)))) := by
  refine ⟨?_, checkSwapoutInfo_of_EqualFold lib r b swapInfo, ?_⟩
  · cases hf : EqualFold lib swapInfo.From swapInfo.To with
    | true => simp [checkSwapoutInfo, hf]
    | false =>
      cases h1 : b.GetTokenConfig swapInfo.ERC20SwapInfo.Token with
      | none => simp [checkSwapoutInfo, hf, h1]
      | some fromTokenCfg =>
        by_cases h2 : swapInfo.ERC20SwapInfo.TokenID = ""
        · simp [checkSwapoutInfo, hf, h1, h2]
        · by_cases h3 : r.GetCachedMultichainToken swapInfo.ERC20SwapInfo.TokenID
              (bigString swapInfo.ToChainID) = ""
          · simp [checkSwapoutInfo, hf, h1, h2, h3]
          · cases h4 : r.GetBridgeByChainID (bigString swapInfo.ToChainID) with
            | none => simp [checkSwapoutInfo, hf, h1, h2, h3, h4]
            | some toBridge =>
              cases h5 : toBridge.GetTokenConfig (r.GetCachedMultichainToken
                  swapInfo.ERC20SwapInfo.TokenID (bigString swapInfo.ToChainID)) with
              | none => simp [checkSwapoutInfo, hf, h1, h2, h3, h4, h5]
              | some toTokenCfg =>
                cases h6 : lib.CheckTokenSwapValue swapInfo fromTokenCfg.Decimals
                    toTokenCfg.Decimals with
                | false => simp [checkSwapoutInfo, hf, h1, h2, h3, h4, h5, h6]
                | true =>
                  cases h7 : toBridge.IsValidAddress swapInfo.Bind with
                  | false => simp [checkSwapoutInfo, hf, h1, h2, h3, h4, h5, h6, h7]
                  | true => simp [checkSwapoutInfo, hf, h1, h2, h3, h4, h5, h6, h7]
  · intro hf
    refine ⟨?_, ?_⟩
    · rintro (h1 | h2)
      · simp [checkSwapoutInfo, hf, h1]
      · cases h1 : b.GetTokenConfig swapInfo.ERC20SwapInfo.Token <;>
          simp [checkSwapoutInfo, hf, h1, h2]
    · intro fromTokenCfg h1 h2
      refine ⟨fun h3 => by simp [checkSwapoutInfo, hf, h1, h2, h3], fun h3 => ⟨?_, ?_⟩⟩
      · intro h4
        simp [checkSwapoutInfo, hf, h1, h2, h3, h4]
      · intro toBridge h4
        refine ⟨fun h5 => by simp [checkSwapoutInfo, hf, h1, h2, h3, h4, h5],
          fun toTokenCfg h5 => ⟨?_, ?_⟩⟩
        · intro h6
          simp [checkSwapoutInfo, hf, h1, h2, h3, h4, h5, h6]
        · intro h6
          exact ⟨fun h7 => by simp [checkSwapoutInfo, hf, h1, h2, h3, h4, h5, h6, h7],
            fun h7 => by simp [checkSwapoutInfo, hf, h1, h2, h3, h4, h5, h6, h7]⟩

/-- C14 as amended, at a swap-out of 100 `usdt.near` from `alice.near` to chain 56,
which passes every check, and at the same swap-out sent by the router contract
itself. -/
theorem checkSwapoutInfo_spec_witness :
    checkSwapoutInfo sample.lib sample.lookups (sample.nearBridge [])
      { ERC20SwapInfo := { Token := "usdt.near", TokenID := "USDT" }
        From := "alice.near", To := "router.near", Bind := "0xabc"
        Value := some 100, ToChainID := some 56 } = none ∧
    checkSwapoutInfo sample.lib sample.lookups (sample.nearBridge [])
      { ERC20SwapInfo := { Token := "usdt.near", TokenID := "USDT" }
        From := "router.near", To := "router.near", Bind := "0xabc"
        Value := some 100, ToChainID := some 56 } = some .ErrTxWithWrongSender :=
  ⟨(checkSwapoutInfo_spec sample.lib sample.lookups (sample.nearBridge [])
      { ERC20SwapInfo := { Token := "usdt.near", TokenID := "USDT" }
        From := "alice.near", To := "router.near", Bind := "0xabc"
        Value := some 100, ToChainID := some 56 }).1.2
      ⟨by decide, { TokenID := "USDT", Decimals := 6 },
        { GetTokenConfig := fun _ => some { TokenID := "USDT", Decimals := 18 }
          IsValidAddress := fun _ => true },
        { TokenID := "USDT", Decimals := 18 }, rfl, by decide, by decide, rfl, rfl, rfl, rfl⟩,
   (checkSwapoutInfo_spec sample.lib sample.lookups (sample.nearBridge [])
      { ERC20SwapInfo := { Token := "usdt.near", TokenID := "USDT" }
        From := "router.near", To := "router.near", Bind := "0xabc"
        Value := some 100, ToChainID := some 56 }).2.1 (by decide)⟩

/-- C14 as stated fails: the sender `Router.near` differs from the deposit address
`router.near` and every other condition holds (the same swap-out sent by
`alice.near` passes), yet `checkSwapoutInfo` returns `ErrTxWithWrongSender`:
the two addresses are compared with `strings.EqualFold`, ignoring letter
case. -/
theorem checkSwapoutInfo_rejects_sender_differing_in_case :
    "Router.near" ≠ "router.near" ∧
    checkSwapoutInfo sample.lib sample.lookups (sample.nearBridge [])
      { ERC20SwapInfo := { Token := "usdt.near", TokenID := "USDT" }
        From := "alice.near", To := "router.near", Bind := "0xabc"
        Value := some 100, ToChainID := some 56 } = none ∧
    checkSwapoutInfo sample.lib sample.lookups (sample.nearBridge [])
      { ERC20SwapInfo := { Token := "usdt.near", TokenID := "USDT" }
        From := "Router.near", To := "router.near", Bind := "0xabc"
        Value := some 100, ToChainID := some 56 } = some .ErrTxWithWrongSender := by
  decide

/-! ## The message hash -/

theorem VerifyMsgHash_of_serialized (lib : Libraries) (tx : RawTransaction)
    (buf : List Byte) (h : lib.borshSerialize tx = .ok buf) (msgHashes : List String) :
    VerifyMsgHash lib (.RawTransaction tx) msgHashes =
      match msgHashes with
      | [] => some .ErrWrongCountOfMsgHashes
      | msgHash :: _ =>
        if EqualFold lib (lib.base58Encode (lib.Sum256 buf)) msgHash = true then none
        else some .ErrMsgHashMismatch := by
  cases msgHashes with
  | nil => simp [VerifyMsgHash, h]
  | cons msgHash rest =>
    cases hf : EqualFold lib (lib.base58Encode (lib.Sum256 buf)) msgHash <;>
      simp [VerifyMsgHash, h, hf]

/-- C15, as the code has it: `VerifyMsgHash` accepts the hash up to letter case.  For
every raw transaction `tx` and every list `msgHashes` it returns no error if
and only if the serialization of `tx` succeeds, `msgHashes` is non-empty and
its first element is equal under `strings.EqualFold` (ignoring letter case) to
the base-58 encoding of the SHA-256 digest of the serialization of `tx`; when
the serialization succeeds, every other first element yields
`ErrMsgHashMismatch`, an empty list yields `ErrWrongCountOfMsgHashes`, and the
encoded digest itself is accepted. -/
theorem VerifyMsgHash_spec (lib : Libraries) (tx : RawTransaction) (msgHashes : List String) :
    (VerifyMsgHash lib (.RawTransaction tx) msgHashes = none ↔
      ∃ buf msgHash rest, lib.borshSerialize tx = .ok buf ∧ msgHashes = msgHash :: rest ∧
        EqualFold lib (lib.base58Encode (lib.Sum256 buf)) msgHash = true) ∧
    (∀ buf, lib.borshSerialize tx = .ok buf →
      (msgHashes = [] →
        VerifyMsgHash lib (.RawTransaction tx) msgHashes = some .ErrWrongCountOfMsgHashes) ∧
      (∀ msgHash rest, msgHashes = msgHash :: rest →
        EqualFold lib (lib.base58Encode (lib.Sum256 buf)) msgHash = false →
        VerifyMsgHash lib (.RawTransaction tx) msgHashes = some .ErrMsgHashMismatch) ∧
      VerifyMsgHash lib (.RawTransaction tx)
        (lib.base58Encode (lib.Sum256 buf) :: msgHashes) = none) := by
  constructor
  · constructor
    · intro h
      cases hb : lib.borshSerialize tx with
      | error e => simp [VerifyMsgHash, hb] at h
      | ok buf =>
        rw [VerifyMsgHash_of_serialized lib tx buf hb] at h
        cases msgHashes with
        | nil => simp at h
        | cons msgHash rest =>
          refine ⟨buf, msgHash, rest, rfl, rfl, ?_⟩
          by_contra hf
          simp [hf] at h
    · rintro ⟨buf, msgHash, rest, hb, rfl, hf⟩
      rw [VerifyMsgHash_of_serialized lib tx buf hb]
      simp [hf]
  · intro buf hb
    refine ⟨?_, ?_, ?_⟩
    · intro h
      rw [VerifyMsgHash_of_serialized lib tx buf hb, h]
    · intro msgHash rest h hf
      rw [VerifyMsgHash_of_serialized lib tx buf hb, h]
      simp [hf]
    · rw [VerifyMsgHash_of_serialized lib tx buf hb]
      simp [EqualFold_self]

/-- C15 as amended, at the sample transaction: an empty list, a hash that does not
match, and the encoded digest itself. -/
theorem VerifyMsgHash_spec_witness :
    VerifyMsgHash sample.lib (.RawTransaction sample.rawTx) [] =
      some .ErrWrongCountOfMsgHashes ∧
    VerifyMsgHash sample.lib (.RawTransaction sample.rawTx)
      ["4vJ9JU1bJJE96FWSJKvHsmmFADCg4gpZQff4P3bkLKi"] = some .ErrMsgHashMismatch ∧
    VerifyMsgHash sample.lib (.RawTransaction sample.rawTx)
      [sample.lib.base58Encode (sample.lib.Sum256 (7 :: List.replicate 32 9))] = none :=
  ⟨((VerifyMsgHash_spec sample.lib sample.rawTx []).2
      (7 :: List.replicate 32 9) (by decide)).1 rfl,
   ((VerifyMsgHash_spec sample.lib sample.rawTx
      ["4vJ9JU1bJJE96FWSJKvHsmmFADCg4gpZQff4P3bkLKi"]).2
      (7 :: List.replicate 32 9) (by decide)).2.1
      "4vJ9JU1bJJE96FWSJKvHsmmFADCg4gpZQff4P3bkLKi" [] rfl (by decide),
   ((VerifyMsgHash_spec sample.lib sample.rawTx []).2
      (7 :: List.replicate 32 9) (by decide)).2.2⟩

/-- C15 as stated fails: the encoded digest of the sample transaction is
`UTqzijvY1gcSS1cugQNq2TQgQmGefyZrwP8X2nQHPag`; the hash
`utqzijvY1gcSS1cugQNq2TQgQmGefyZrwP8X2nQHPag`, which differs from it in the
case of its first two letters, is accepted. -/
theorem VerifyMsgHash_accepts_hash_differing_in_case :
    sample.lib.base58Encode (sample.lib.Sum256 (7 :: List.replicate 32 9)) =
      "UTqzijvY1gcSS1cugQNq2TQgQmGefyZrwP8X2nQHPag" ∧
    sample.lib.borshSerialize sample.rawTx = .ok (7 :: List.replicate 32 9) ∧
    "utqzijvY1gcSS1cugQNq2TQgQmGefyZrwP8X2nQHPag" ≠
      "UTqzijvY1gcSS1cugQNq2TQgQmGefyZrwP8X2nQHPag" ∧
    VerifyMsgHash sample.lib (.RawTransaction sample.rawTx)
      ["utqzijvY1gcSS1cugQNq2TQgQmGefyZrwP8X2nQHPag"] = none := by
  decide

end near

namespace main

open tokens near

/-! ## Signing -/

theorem copyArray_of_length (n : Nat) (src : List Byte) (h : src.length = n) :
    copyArray n src = src := by
  subst h
  simp [copyArray]

theorem MPCSignTransaction_of_serialized (lib : Libraries)
    (DoSignOneED : String → String → String → Except Error (String × List String))
    (tx : RawTransaction) (paramPublicKey : String) (buf : List Byte)
    (hb : lib.borshSerialize tx = .ok buf) :
    MPCSignTransaction lib DoSignOneED (.RawTransaction tx) paramPublicKey =
      match DoSignOneED paramPublicKey (lib.ToHex (lib.Sum256 buf)) "" with
      | .error err => (none, "", some err)
      | .ok (_, [rsv]) =>
        if (lib.FromHex rsv).length = 64 then
          (some { Transaction := tx, Signature := { KeyType := 0, Data := lib.FromHex rsv } },
            lib.base58Encode (lib.Sum256 buf), none)
        else
          (none, "", some (.New "wrong signature length"))
      | .ok (_, _) => (none, "", some (.New "get sign status require one rsv but return many")) := by
  simp only [MPCSignTransaction, hb]
  cases hs : DoSignOneED paramPublicKey (lib.ToHex (lib.Sum256 buf)) "" with
  | error err => rfl
  | ok resp =>
    obtain ⟨keyID, rsvs⟩ := resp
    rcases rsvs with _ | ⟨rsv, _ | ⟨rsv2, rest⟩⟩
    · rfl
    · by_cases hl : (lib.FromHex rsv).length = 64
      · simp [SignatureSize, hl, copyArray_of_length]
      · simp [SignatureSize, hl]
    · rfl

theorem MPCSignTransaction_success (lib : Libraries)
    (DoSignOneED : String → String → String → Except Error (String × List String))
    (tx : RawTransaction) (paramPublicKey : String)
    (h : (MPCSignTransaction lib DoSignOneED (.RawTransaction tx) paramPublicKey).2.2 = none) :
    ∃ buf keyID rsv, lib.borshSerialize tx = .ok buf ∧
      DoSignOneED paramPublicKey (lib.ToHex (lib.Sum256 buf)) "" = .ok (keyID, [rsv]) ∧
      (lib.FromHex rsv).length = 64 ∧
      MPCSignTransaction lib DoSignOneED (.RawTransaction tx) paramPublicKey =
        (some { Transaction := tx, Signature := { KeyType := 0, Data := lib.FromHex rsv } },
          lib.base58Encode (lib.Sum256 buf), none) := by
  cases hb : lib.borshSerialize tx with
  | error err => simp [MPCSignTransaction, hb] at h
  | ok buf =>
    rw [MPCSignTransaction_of_serialized lib DoSignOneED tx paramPublicKey buf hb] at h ⊢
    cases hs : DoSignOneED paramPublicKey (lib.ToHex (lib.Sum256 buf)) "" with
    | error err => simp [hs] at h
    | ok resp =>
      obtain ⟨keyID, rsvs⟩ := resp
      rw [hs] at h
      rcases rsvs with _ | ⟨rsv, _ | ⟨rsv2, rest⟩⟩
      · simp at h
      · by_cases hl : (lib.FromHex rsv).length = 64
        · exact ⟨buf, keyID, rsv, rfl, hs, hl, by simp [hs, hl]⟩
        · simp [hl] at h
      · simp at h

/-- C16: whenever `MPCSignTransaction` succeeds on an unsigned transaction `tx`, it
returns a signed transaction and the transaction hash `txHash`; `txHash` is
the base-58 encoding of the digest whose hex form was given to the signer (the
result depends on the signer only through its answer to that request), it is
the same for any signer and public key with which signing succeeds, the
transaction inside the signed transaction equals `tx`, and
`VerifyMsgHash(tx, [txHash])` returns no error. -/
theorem MPCSignTransaction_round_trip (lib : Libraries)
    (DoSignOneED : String → String → String → Except Error (String × List String))
    (tx : RawTransaction) (paramPublicKey : String)
    (h : (MPCSignTransaction lib DoSignOneED (.RawTransaction tx) paramPublicKey).2.2 = none) :
    ∃ buf stx,
      lib.borshSerialize tx = .ok buf ∧
      MPCSignTransaction lib DoSignOneED (.RawTransaction tx) paramPublicKey =
        (some stx, lib.base58Encode (lib.Sum256 buf), none) ∧
      (∃ resp, DoSignOneED paramPublicKey (lib.ToHex (lib.Sum256 buf)) "" = .ok resp) ∧
      (∀ DoSignOneED',
        DoSignOneED' paramPublicKey (lib.ToHex (lib.Sum256 buf)) "" =
          DoSignOneED paramPublicKey (lib.ToHex (lib.Sum256 buf)) "" →
        MPCSignTransaction lib DoSignOneED' (.RawTransaction tx) paramPublicKey =
          MPCSignTransaction lib DoSignOneED (.RawTransaction tx) paramPublicKey) ∧
      (∀ DoSignOneED' paramPublicKey',
        (MPCSignTransaction lib DoSignOneED' (.RawTransaction tx) paramPublicKey').2.2 = none →
        (MPCSignTransaction lib DoSignOneED' (.RawTransaction tx) paramPublicKey').2.1 =
          lib.base58Encode (lib.Sum256 buf)) ∧
      stx.Transaction = tx ∧
      VerifyMsgHash lib (.RawTransaction tx) [lib.base58Encode (lib.Sum256 buf)] = none := by
  obtain ⟨buf, keyID, rsv, hb, hs, _, hr⟩ :=
    MPCSignTransaction_success lib DoSignOneED tx paramPublicKey h
  refine ⟨buf, _, hb, hr, ⟨_, hs⟩, ?_, ?_, rfl, ?_⟩
  · intro DoSignOneED' hsame
    rw [MPCSignTransaction_of_serialized lib DoSignOneED' tx paramPublicKey buf hb,
      MPCSignTransaction_of_serialized lib DoSignOneED tx paramPublicKey buf hb, hsame]
  · intro DoSignOneED' paramPublicKey' h'
    obtain ⟨buf', _, _, hb', _, _, hr'⟩ :=
      MPCSignTransaction_success lib DoSignOneED' tx paramPublicKey' h'
    rw [hb] at hb'
    cases hb'
    rw [hr']
  · rw [VerifyMsgHash_of_serialized lib tx buf hb]
    simp [EqualFold_self]

/-- C16 at the sample transaction and a signing service that answers with one
signature of 64 bytes. -/
theorem MPCSignTransaction_round_trip_witness :
    ∃ buf stx,
      sample.lib.borshSerialize sample.rawTx = .ok buf ∧
      MPCSignTransaction sample.lib sample.signer (.RawTransaction sample.rawTx) "pubkey" =
        (some stx, sample.lib.base58Encode (sample.lib.Sum256 buf), none) ∧
      (∃ resp, sample.signer "pubkey" (sample.lib.ToHex (sample.lib.Sum256 buf)) "" =
        .ok resp) ∧
      (∀ DoSignOneED',
        DoSignOneED' "pubkey" (sample.lib.ToHex (sample.lib.Sum256 buf)) "" =
          sample.signer "pubkey" (sample.lib.ToHex (sample.lib.Sum256 buf)) "" →
        MPCSignTransaction sample.lib DoSignOneED' (.RawTransaction sample.rawTx) "pubkey" =
          MPCSignTransaction sample.lib sample.signer (.RawTransaction sample.rawTx)
            "pubkey") ∧
      (∀ DoSignOneED' paramPublicKey',
        (MPCSignTransaction sample.lib DoSignOneED' (.RawTransaction sample.rawTx)
          paramPublicKey').2.2 = none →
        (MPCSignTransaction sample.lib DoSignOneED' (.RawTransaction sample.rawTx)
          paramPublicKey').2.1 = sample.lib.base58Encode (sample.lib.Sum256 buf)) ∧
      stx.Transaction = sample.rawTx ∧
      VerifyMsgHash sample.lib (.RawTransaction sample.rawTx)
        [sample.lib.base58Encode (sample.lib.Sum256 buf)] = none :=
  MPCSignTransaction_round_trip sample.lib sample.signer sample.rawTx "pubkey" (by decide)

/-- C17: for every answer of the signing service whose number of signatures is not
exactly one, `MPCSignTransaction` returns an error together with a nil signed
transaction and an empty transaction hash; a signed transaction is returned
only when the service answered with exactly one signature. -/
theorem MPCSignTransaction_cardinality (lib : Libraries)
    (DoSignOneED : String → String → String → Except Error (String × List String))
    (tx : RawTransaction) (paramPublicKey : String) :
    (∀ buf keyID rsvs, lib.borshSerialize tx = .ok buf →
      DoSignOneED paramPublicKey (lib.ToHex (lib.Sum256 buf)) "" = .ok (keyID, rsvs) →
      rsvs.length ≠ 1 →
      MPCSignTransaction lib DoSignOneED (.RawTransaction tx) paramPublicKey =
        (none, "", some (.New "get sign status require one rsv but return many"))) ∧
    (∀ stx, (MPCSignTransaction lib DoSignOneED (.RawTransaction tx) paramPublicKey).1 =
        some stx →
      ∃ buf keyID rsv, lib.borshSerialize tx = .ok buf ∧
        DoSignOneED paramPublicKey (lib.ToHex (lib.Sum256 buf)) "" = .ok (keyID, [rsv])) := by
  constructor
  · intro buf keyID rsvs hb hs hlen
    rw [MPCSignTransaction_of_serialized lib DoSignOneED tx paramPublicKey buf hb, hs]
    rcases rsvs with _ | ⟨rsv, _ | ⟨rsv2, rest⟩⟩
    · rfl
    · simp at hlen
    · rfl
  · intro stx h
    cases hb : lib.borshSerialize tx with
    | error err => simp [MPCSignTransaction, hb] at h
    | ok buf =>
      rw [MPCSignTransaction_of_serialized lib DoSignOneED tx paramPublicKey buf hb] at h
      cases hs : DoSignOneED paramPublicKey (lib.ToHex (lib.Sum256 buf)) "" with
      | error err => simp [hs] at h
      | ok resp =>
        obtain ⟨keyID, rsvs⟩ := resp
        rw [hs] at h
        rcases rsvs with _ | ⟨rsv, _ | ⟨rsv2, rest⟩⟩
        · simp at h
        · exact ⟨buf, keyID, rsv, rfl, hs⟩
        · simp at h

/-- C17 at the sample transaction, with a signing service that answers with no
signature, with one that answers with two, and with one that answers with
one. -/
theorem MPCSignTransaction_cardinality_witness :
    MPCSignTransaction sample.lib (sample.signerOf []) (.RawTransaction sample.rawTx)
        "pubkey" =
      (none, "", some (.New "get sign status require one rsv but return many")) ∧
    MPCSignTransaction sample.lib (sample.signerOf ["0x01", "0x02"])
        (.RawTransaction sample.rawTx) "pubkey" =
      (none, "", some (.New "get sign status require one rsv but return many")) ∧
    (∃ buf keyID rsv, sample.lib.borshSerialize sample.rawTx = .ok buf ∧
      sample.signer "pubkey" (sample.lib.ToHex (sample.lib.Sum256 buf)) "" =
        .ok (keyID, [rsv])) :=
  ⟨(MPCSignTransaction_cardinality sample.lib (sample.signerOf []) sample.rawTx "pubkey").1
      (7 :: List.replicate 32 9) "keyid" [] (by decide) rfl (by decide),
   (MPCSignTransaction_cardinality sample.lib (sample.signerOf ["0x01", "0x02"]) sample.rawTx
      "pubkey").1 (7 :: List.replicate 32 9) "keyid" ["0x01", "0x02"] (by decide) rfl
      (by decide),
   (MPCSignTransaction_cardinality sample.lib sample.signer sample.rawTx "pubkey").2
      { Transaction := sample.rawTx
        Signature := { KeyType := 0, Data := List.replicate 64 5 } } (by decide)⟩

/-- C18: given exactly one signature from the signing service, `MPCSignTransaction`
fails with the error `wrong signature length` if and only if the decoded
signature is not exactly 64 bytes long; when it is 64 bytes long the call
succeeds and the signed transaction carries the transaction, key type 0 and
exactly those 64 bytes as its signature data. -/
theorem MPCSignTransaction_signature_length (lib : Libraries)
    (DoSignOneED : String → String → String → Except Error (String × List String))
    (tx : RawTransaction) (paramPublicKey : String) (buf : List Byte) (keyID rsv : String)
    (hb : lib.borshSerialize tx = .ok buf)
    (hs : DoSignOneED paramPublicKey (lib.ToHex (lib.Sum256 buf)) "" = .ok (keyID, [rsv])) :
    ((MPCSignTransaction lib DoSignOneED (.RawTransaction tx) paramPublicKey).2.2 =
        some (.New "wrong signature length") ↔ (lib.FromHex rsv).length ≠ 64) ∧
    ((lib.FromHex rsv).length ≠ 64 →
      MPCSignTransaction lib DoSignOneED (.RawTransaction tx) paramPublicKey =
        (none, "", some (.New "wrong signature length"))) ∧
    ((lib.FromHex rsv).length = 64 →
      MPCSignTransaction lib DoSignOneED (.RawTransaction tx) paramPublicKey =
        (some { Transaction := tx, Signature := { KeyType := 0, Data := lib.FromHex rsv } },
          lib.base58Encode (lib.Sum256 buf), none)) := by
  rw [MPCSignTransaction_of_serialized lib DoSignOneED tx paramPublicKey buf hb, hs]
  by_cases hl : (lib.FromHex rsv).length = 64
  · simp [hl]
  · simp [hl]

/-- C18 at the sample transaction, with a signature of 64 bytes and with one of
two bytes. -/
theorem MPCSignTransaction_signature_length_witness :
    MPCSignTransaction sample.lib sample.signer (.RawTransaction sample.rawTx) "pubkey" =
      (some { Transaction := sample.rawTx
              Signature := { KeyType := 0
                             Data := sample.lib.FromHex (sample.ToHex (List.replicate 64 5)) } },
        sample.lib.base58Encode (sample.lib.Sum256 (7 :: List.replicate 32 9)), none) ∧
    MPCSignTransaction sample.lib (sample.signerOf ["0x0102"]) (.RawTransaction sample.rawTx)
        "pubkey" =
      (none, "", some (.New "wrong signature length")) :=
  ⟨(MPCSignTransaction_signature_length sample.lib sample.signer sample.rawTx "pubkey"
      (7 :: List.replicate 32 9) "keyid" (sample.ToHex (List.replicate 64 5))
      (by decide) rfl).2.2 (by decide),
   (MPCSignTransaction_signature_length sample.lib (sample.signerOf ["0x0102"]) sample.rawTx
      "pubkey" (7 :: List.replicate 32 9) "keyid" "0x0102" (by decide) rfl).2.1 (by decide)⟩

end main

namespace near

open tokens

/-! ## Building the transaction -/

theorem BuildRawTransaction_validation (lib : Libraries) (p : params.Settings)
    (r : router.Lookups) (b : Bridge) (args : BuildTxArgs) :
    (p.IsTestMode = false → toString args.ToChainID ≠ b.ChainConfig.ChainID →
      BuildRawTransaction lib p r b args = (args, some (.error .ErrToChainIDMismatch))) ∧
    ((p.IsTestMode = true ∨ toString args.ToChainID = b.ChainConfig.ChainID) →
      (args.Input = true →
        BuildRawTransaction lib p r b args =
          (args, some (.error (.New "forbid build raw swap tx with input data")))) ∧
      (args.Input = false → args.From = "" →
        BuildRawTransaction lib p r b args =
          (args, some (.error (.New "forbid empty sender"))))) := by
  refine ⟨fun ht hne => ?_, fun hok => ?_⟩
  · simp [BuildRawTransaction, ht, hne]
  · have hc : ¬ (p.IsTestMode = false ∧ ¬ toString args.ToChainID = b.ChainConfig.ChainID) := by
      rintro ⟨h1, h2⟩
      rcases hok with h | h
      · rw [h] at h1
        cases h1
      · exact h2 h
    exact ⟨fun hi => by simp [BuildRawTransaction, hc, hi],
      fun hi hf => by simp [BuildRawTransaction, hc, hi, hf]⟩

/-- C19: `BuildRawTransaction` rejects a malformed request before any lookup.  When
test mode is off and the decimal text of the destination chain id differs from
the chain id of the bridge, the result is `ErrToChainIDMismatch`, whatever the
call-data and the sender; otherwise a request with call-data is rejected,
whatever the sender; otherwise a request with an empty sender is rejected.  In
each case an error and no transaction is returned, the request is left as it
was, and the result is the same for every other value of the library
functions, of the router lookups, of the settings with the same test mode and
of the bridge with the same chain id. -/
theorem BuildRawTransaction_rejects_malformed (lib : Libraries) (p : params.Settings)
    (r : router.Lookups) (b : Bridge) (args : BuildTxArgs) :
    (p.IsTestMode = false → toString args.ToChainID ≠ b.ChainConfig.ChainID →
      BuildRawTransaction lib p r b args = (args, some (.error .ErrToChainIDMismatch))) ∧
    ((p.IsTestMode = true ∨ toString args.ToChainID = b.ChainConfig.ChainID) →
      (args.Input = true →
        BuildRawTransaction lib p r b args =
          (args, some (.error (.New "forbid build raw swap tx with input data")))) ∧
      (args.Input = false → args.From = "" →
        BuildRawTransaction lib p r b args =
          (args, some (.error (.New "forbid empty sender"))))) ∧
    ((p.IsTestMode = false ∧ toString args.ToChainID ≠ b.ChainConfig.ChainID) ∨
        args.Input = true ∨ args.From = "" →
      (∃ err, BuildRawTransaction lib p r b args = (args, some (.error err))) ∧
      ∀ (lib' : Libraries) (p' : params.Settings) (r' : router.Lookups) (b' : Bridge),
        p'.IsTestMode = p.IsTestMode → b'.ChainConfig.ChainID = b.ChainConfig.ChainID →
        BuildRawTransaction lib' p' r' b' args = BuildRawTransaction lib p r b args) := by
  have key := BuildRawTransaction_validation lib p r b args
  refine ⟨key.1, key.2, ?_⟩
  intro hbad
  by_cases hm : p.IsTestMode = false ∧ toString args.ToChainID ≠ b.ChainConfig.ChainID
  · refine ⟨⟨_, key.1 hm.1 hm.2⟩, fun lib' p' r' b' hp' hb' => ?_⟩
    rw [key.1 hm.1 hm.2, (BuildRawTransaction_validation lib' p' r' b' args).1
      (by rw [hp']; exact hm.1) (by rw [hb']; exact hm.2)]
  · have hok : p.IsTestMode = true ∨ toString args.ToChainID = b.ChainConfig.ChainID := by
      by_cases ht : p.IsTestMode = true
      · exact Or.inl ht
      · right
        by_contra hne
        exact hm ⟨by simpa using ht, hne⟩
    have hrest : args.Input = true ∨ args.From = "" := by
      rcases hbad with h | h
      · exact absurd h hm
      · exact h
    by_cases hi : args.Input = true
    · refine ⟨⟨_, (key.2 hok).1 hi⟩, fun lib' p' r' b' hp' hb' => ?_⟩
      rw [(key.2 hok).1 hi, ((BuildRawTransaction_validation lib' p' r' b' args).2
        (by rw [hp', hb']; exact hok)).1 hi]
    · have hi' : args.Input = false := by simpa using hi
      have hf : args.From = "" := hrest.resolve_left hi
      refine ⟨⟨_, (key.2 hok).2 hi' hf⟩, fun lib' p' r' b' hp' hb' => ?_⟩
      rw [(key.2 hok).2 hi' hf, ((BuildRawTransaction_validation lib' p' r' b' args).2
        (by rw [hp', hb']; exact hok)).2 hi' hf]

/-- C19 at three requests to the sample bridge of chain 1001313161554: one for
chain 56 that also carries call-data and has no sender, one for the right
chain with call-data and no sender, one for the right chain with no sender. -/
theorem BuildRawTransaction_rejects_malformed_witness :
    BuildRawTransaction sample.lib
        { IsTestMode := false, IsParallelSwapEnabled := false,
          IsAutoSwapNonceEnabled := fun _ => false }
        sample.lookups (sample.nearBridge []) { ToChainID := 56, Input := true, From := "" } =
      ({ ToChainID := 56, Input := true, From := "" }, some (.error .ErrToChainIDMismatch)) ∧
    BuildRawTransaction sample.lib
        { IsTestMode := false, IsParallelSwapEnabled := false,
          IsAutoSwapNonceEnabled := fun _ => false }
        sample.lookups (sample.nearBridge [])
        { ToChainID := 1001313161554, Input := true, From := "" } =
      ({ ToChainID := 1001313161554, Input := true, From := "" },
        some (.error (.New "forbid build raw swap tx with input data"))) ∧
    BuildRawTransaction sample.lib
        { IsTestMode := false, IsParallelSwapEnabled := false,
          IsAutoSwapNonceEnabled := fun _ => false }
        sample.lookups (sample.nearBridge [])
        { ToChainID := 1001313161554, Input := false, From := "" } =
      ({ ToChainID := 1001313161554, Input := false, From := "" },
        some (.error (.New "forbid empty sender"))) :=
  ⟨(BuildRawTransaction_rejects_malformed sample.lib
      { IsTestMode := false, IsParallelSwapEnabled := false,
        IsAutoSwapNonceEnabled := fun _ => false }
      sample.lookups (sample.nearBridge []) { ToChainID := 56, Input := true, From := "" }).1
      rfl (by decide),
   ((BuildRawTransaction_rejects_malformed sample.lib
      { IsTestMode := false, IsParallelSwapEnabled := false,
        IsAutoSwapNonceEnabled := fun _ => false }
      sample.lookups (sample.nearBridge [])
      { ToChainID := 1001313161554, Input := true, From := "" }).2.1
      (Or.inr (by decide))).1 rfl,
   ((BuildRawTransaction_rejects_malformed sample.lib
      { IsTestMode := false, IsParallelSwapEnabled := false,
        IsAutoSwapNonceEnabled := fun _ => false }
      sample.lookups (sample.nearBridge [])
      { ToChainID := 1001313161554, Input := false, From := "" }).2.1
      (Or.inr (by decide))).2 rfl rfl⟩

/-- C20, as the code has it: the action built by `createFunctionCall` for the generic
variant `any_swap_in` carries in its argument payload the swap identifier
`<txHash>:<logIndex>`, the token identifier, the receiver, the amount and the
origin chain id; the action built for the native variant `swap_in_native`
carries the swap identifier, the receiver, the amount and the origin chain id
but no token identifier (the action is the same for every token); both carry
the discriminant 2, the method name, the gas budget and a zero deposit on the
action. -/
theorem createFunctionCall_spec (lib : Libraries)
    (txHash token to_ amount fromChainID : String) (logIndex : Int) (gas : Nat) :
    createFunctionCall lib txHash swapinMethod token to_ amount fromChainID logIndex gas =
      some [{ Enum := 2
              FunctionCall :=
                { MethodName := "any_swap_in"
                  Args := lib.jsonMarshalAnySwapIn
                    { Tx := txHash ++ ":" ++ toString logIndex, Token := token, To := to_,
                      Amount := amount, FromChainID := fromChainID }
                  Gas := gas
                  Deposit := 0 } }] ∧
    createFunctionCall lib txHash swapinNativeMethod token to_ amount fromChainID logIndex gas =
      some [{ Enum := 2
              FunctionCall :=
                { MethodName := "swap_in_native"
                  Args := lib.jsonMarshalSwapInNative
                    { Tx := txHash ++ ":" ++ toString logIndex, To := to_,
                      Amount := amount, FromChainID := fromChainID }
                  Gas := gas
                  Deposit := 0 } }] ∧
    (∀ token' : String,
      createFunctionCall lib txHash swapinNativeMethod token' to_ amount fromChainID
          logIndex gas =
        createFunctionCall lib txHash swapinNativeMethod token to_ amount fromChainID
          logIndex gas) := by
  have hne : swapinNativeMethod ≠ swapinMethod := by decide
  refine ⟨?_, ?_, fun token' => ?_⟩
  · simp [createFunctionCall, buildAnySwapInArgs, swapinMethod]
  · simp [createFunctionCall, buildSwapInNativeArgs, hne]
    rfl
  · simp [createFunctionCall, buildSwapInNativeArgs, hne]

/-- C20 as stated fails: for the native variant the actions built for the tokens
`usdt.near` and `dai.near` are the same, and the payload holds the four
fields swap identifier, receiver, amount and origin chain id, while the
payload of the generic variant holds five: the token identifier is not in the
native payload and the two payloads do not have the same shape. -/
theorem createFunctionCall_native_without_token :
    "usdt.near" ≠ "dai.near" ∧
    createFunctionCall sample.lib "0xabc" swapinNativeMethod "usdt.near" "bob.near" "100" "56"
        0 defaultGasLimit =
      createFunctionCall sample.lib "0xabc" swapinNativeMethod "dai.near" "bob.near" "100" "56"
        0 defaultGasLimit ∧
    createFunctionCall sample.lib "0xabc" swapinNativeMethod "usdt.near" "bob.near" "100" "56"
        0 defaultGasLimit =
      some [{ Enum := 2
              FunctionCall :=
                { MethodName := "swap_in_native"
                  Args := sample.joinFields ["0xabc:0", "bob.near", "100", "56"]
                  Gas := 70000000000000
                  Deposit := 0 } }] ∧
    createFunctionCall sample.lib "0xabc" swapinMethod "usdt.near" "bob.near" "100" "56"
        0 defaultGasLimit =
      some [{ Enum := 2
              FunctionCall :=
                { MethodName := "any_swap_in"
                  Args := sample.joinFields ["0xabc:0", "usdt.near", "bob.near", "100", "56"]
                  Gas := 70000000000000
                  Deposit := 0 } }] := by
  decide

/-! ## The receipts of the router contract -/

theorem fliterReceipts_eq (receipts : List ReceiptsOutcome) (routerAddr : String) :
    fliterReceipts receipts routerAddr =
      ((receipts.filter fun receipt => decide (receipt.Outcome.ExecutorID = routerAddr)).map
        fun receipt => receipt.Outcome.Logs).flatten := by
  induction receipts with
  | nil => rfl
  | cons receipt receipts ih =>
    by_cases h : receipt.Outcome.ExecutorID = routerAddr
    · simp [fliterReceipts, h, ih]
    · simp [fliterReceipts, h, ih]

/-- C25: `fliterReceipts` returns exactly the concatenation, in receipt order and in
the log order of each receipt, of the log lines of the receipts whose executor
id is equal to the router address; every line of the result is a log line of
such a receipt; and for a transaction with no receipt executed by the router
the result is empty and `fliterEvent` on it fails with the log-parse error. -/
theorem fliterReceipts_spec (receipts : List ReceiptsOutcome) (routerAddr : String) :
    fliterReceipts receipts routerAddr =
      ((receipts.filter fun receipt => decide (receipt.Outcome.ExecutorID = routerAddr)).map
        fun receipt => receipt.Outcome.Logs).flatten ∧
    (∀ line ∈ fliterReceipts receipts routerAddr,
      ∃ receipt ∈ receipts, receipt.Outcome.ExecutorID = routerAddr ∧
        line ∈ receipt.Outcome.Logs) ∧
    ((∀ receipt ∈ receipts, receipt.Outcome.ExecutorID ≠ routerAddr) →
      fliterReceipts receipts routerAddr = [] ∧
      fliterEvent (fliterReceipts receipts routerAddr) = .error .errTxLogParse) := by
  refine ⟨fliterReceipts_eq receipts routerAddr, ?_, ?_⟩
  · intro line hline
    rw [fliterReceipts_eq] at hline
    simp only [List.mem_flatten, List.mem_map, List.mem_filter, decide_eq_true_eq] at hline
    obtain ⟨logs, ⟨receipt, ⟨hmem, hexec⟩, rfl⟩, hin⟩ := hline
    exact ⟨receipt, hmem, hexec, hin⟩
  · intro hnone
    have hempty : fliterReceipts receipts routerAddr = [] := by
      rw [fliterReceipts_eq]
      have : (receipts.filter fun receipt =>
          decide (receipt.Outcome.ExecutorID = routerAddr)) = [] := by
        rw [List.filter_eq_nil_iff]
        intro receipt hmem
        simpa using hnone receipt hmem
      rw [this]
      rfl
    exact ⟨hempty, by rw [hempty]; rfl⟩

/-- C25 at a transaction whose only receipt was executed by `token.near`, with
router address `router.near`. -/
theorem fliterReceipts_spec_witness :
    fliterReceipts
      [{ Outcome := { ExecutorID := "token.near", Logs := [sample.selfSwapLog] } }]
      "router.near" = [] ∧
    fliterEvent (fliterReceipts
      [{ Outcome := { ExecutorID := "token.near", Logs := [sample.selfSwapLog] } }]
      "router.near") = .error .errTxLogParse :=
  (fliterReceipts_spec
    [{ Outcome := { ExecutorID := "token.near", Logs := [sample.selfSwapLog] } }]
    "router.near").2.2 (by decide)

/-! ## Positional parsing -/

theorem fliterEvent_ok_length (logs : List String) (event : List String)
    (h : fliterEvent logs = .ok event) : event.length = 13 := by
  induction logs with
  | nil => simp [fliterEvent] at h
  | cons log logs ih =>
    rw [fliterEvent_cons] at h
    by_cases hl : isSwapOutLog log = true
    · simp only [hl, if_true, Except.ok.injEq] at h
      rw [← h]
      exact ((isSwapOutLog_iff log).1 hl).1
    · simp only [hl, if_false] at h
      exact ih h

theorem getElem?_of_length_13 (event : List String) (h : event.length = 13) (i : Nat)
    (hi : i < 13) : ∃ field, event[i]? = some field := by
  have hlt : i < event.length := by omega
  exact ⟨event[i], List.getElem?_eq_getElem hlt⟩

/-- C26: positional parsing is index-safe.  For every event returned successfully by
`fliterEvent`, the positions 2, 4, 6, 8 and 12 that `parseNep141SwapoutTxEvent`
reads are in range, so the call returns (it does not panic); it sets token =
field 2, sender = field 4 and bind address = field 6; it returns the error of
the number parser if field 8 is not numeric, otherwise sets value = the integer
parsed from field 8; it returns the error of the number parser if field 12 is
not numeric, otherwise sets destination chain id = the integer parsed from
field 12, and then fails only for a token without configuration. -/
theorem parseNep141SwapoutTxEvent_index_safe (lib : Libraries) (b : Bridge)
    (swapInfo : SwapTxInfo) (logs event : List String) (h : fliterEvent logs = .ok event) :
    ∃ token sender bind amountStr chainStr,
      event[2]? = some token ∧ event[4]? = some sender ∧ event[6]? = some bind ∧
      event[8]? = some amountStr ∧ event[12]? = some chainStr ∧
      ∃ info err, parseNep141SwapoutTxEvent lib b swapInfo event = some (info, err) ∧
        info.ERC20SwapInfo.Token = token ∧ info.From = sender ∧ info.Bind = bind ∧
        (∀ erra, lib.GetBigIntFromStr amountStr = .error erra → err = some erra) ∧
        (∀ amount, lib.GetBigIntFromStr amountStr = .ok amount →
          info.Value = some amount ∧
          (∀ errt, lib.GetBigIntFromStr chainStr = .error errt → err = some errt) ∧
          (∀ toChainID, lib.GetBigIntFromStr chainStr = .ok toChainID →
            info.ToChainID = some toChainID ∧
            (b.GetTokenConfig token = none → err = some .ErrMissTokenConfig) ∧
            (∀ tokenCfg, b.GetTokenConfig token = some tokenCfg →
              err = none ∧ info.ERC20SwapInfo.TokenID = tokenCfg.TokenID ∧
              info.To = b.GetRouterContract token))) := by
  have hlen := fliterEvent_ok_length logs event h
  obtain ⟨token, h2⟩ := getElem?_of_length_13 event hlen 2 (by decide)
  obtain ⟨sender, h4⟩ := getElem?_of_length_13 event hlen 4 (by decide)
  obtain ⟨bind, h6⟩ := getElem?_of_length_13 event hlen 6 (by decide)
  obtain ⟨amountStr, h8⟩ := getElem?_of_length_13 event hlen 8 (by decide)
  obtain ⟨chainStr, h12⟩ := getElem?_of_length_13 event hlen 12 (by decide)
  refine ⟨token, sender, bind, amountStr, chainStr, h2, h4, h6, h8, h12, ?_⟩
  cases ha : lib.GetBigIntFromStr amountStr with
  | error erra =>
    refine ⟨_, _, by simp only [parseNep141SwapoutTxEvent, h2, h4, h6, h8, ha]; rfl, ?_⟩
    simp
  | ok amount =>
    cases hc : lib.GetBigIntFromStr chainStr with
    | error errt =>
      refine ⟨_, _, by simp only [parseNep141SwapoutTxEvent, h2, h4, h6, h8, h12, ha, hc]; rfl, ?_⟩
      simp
    | ok toChainID =>
      cases ht : b.GetTokenConfig token with
      | none =>
        refine ⟨_, _,
          by simp only [parseNep141SwapoutTxEvent, h2, h4, h6, h8, h12, ha, hc, ht]; rfl, ?_⟩
        simp
      | some tokenCfg =>
        refine ⟨_, _,
          by simp only [parseNep141SwapoutTxEvent, h2, h4, h6, h8, h12, ha, hc, ht]; rfl, ?_⟩
        simp

/-- C26 at the swap-out log of 100 `usdt.near` sent by `router.near` to chain 56. -/
theorem parseNep141SwapoutTxEvent_index_safe_witness :
    ∃ token sender bind amountStr chainStr,
      (Fields sample.selfSwapLog)[2]? = some token ∧
      (Fields sample.selfSwapLog)[4]? = some sender ∧
      (Fields sample.selfSwapLog)[6]? = some bind ∧
      (Fields sample.selfSwapLog)[8]? = some amountStr ∧
      (Fields sample.selfSwapLog)[12]? = some chainStr ∧
      ∃ info err, parseNep141SwapoutTxEvent sample.lib (sample.nearBridge []) {}
          (Fields sample.selfSwapLog) = some (info, err) ∧
        info.ERC20SwapInfo.Token = token ∧ info.From = sender ∧ info.Bind = bind ∧
        (∀ erra, sample.lib.GetBigIntFromStr amountStr = .error erra → err = some erra) ∧
        (∀ amount, sample.lib.GetBigIntFromStr amountStr = .ok amount →
          info.Value = some amount ∧
          (∀ errt, sample.lib.GetBigIntFromStr chainStr = .error errt → err = some errt) ∧
          (∀ toChainID, sample.lib.GetBigIntFromStr chainStr = .ok toChainID →
            info.ToChainID = some toChainID ∧
            ((sample.nearBridge []).GetTokenConfig token = none →
              err = some .ErrMissTokenConfig) ∧
            (∀ tokenCfg, (sample.nearBridge []).GetTokenConfig token = some tokenCfg →
              err = none ∧ info.ERC20SwapInfo.TokenID = tokenCfg.TokenID ∧
              info.To = (sample.nearBridge []).GetRouterContract token))) :=
  parseNep141SwapoutTxEvent_index_safe sample.lib (sample.nearBridge []) {}
    [sample.selfSwapLog] (Fields sample.selfSwapLog) (by decide)

/-! ## The sequence -/

theorem GetSeq_rpc (p : params.Settings) (r : router.Lookups) (b : Bridge) (args : BuildTxArgs)
    (hp : p.IsParallelSwapEnabled = false)
    (ha : p.IsAutoSwapNonceEnabled b.ChainConfig.ChainID = false) :
    GetSeq p r b args =
      match GetPoolNonce r b 0 args.From "pending" with
      | .ok nonce => (some (b.AdjustNonce args.From nonce), none, [.GetPoolNonce 0, .AdjustNonce])
      | .error _ =>
        match GetPoolNonce r b 1 args.From "pending" with
        | .ok nonce =>
          (some (b.AdjustNonce args.From nonce), none,
            [.GetPoolNonce 0, .GetPoolNonce 1, .AdjustNonce])
        | .error _ =>
          match GetPoolNonce r b 2 args.From "pending" with
          | .ok nonce =>
            (some (b.AdjustNonce args.From nonce), none,
              [.GetPoolNonce 0, .GetPoolNonce 1, .GetPoolNonce 2, .AdjustNonce])
          | .error err =>
            (none, some err, [.GetPoolNonce 0, .GetPoolNonce 1, .GetPoolNonce 2]) := by
  simp only [GetSeq, hp, ha, retryRPCCount, pendingNonceLoop, Bool.false_eq_true, if_false]
  cases h0 : GetPoolNonce r b 0 args.From "pending" with
  | ok nonce => rfl
  | error e0 =>
    cases h1 : GetPoolNonce r b 1 args.From "pending" with
    | ok nonce => simp [h1]
    | error e1 =>
      cases h2 : GetPoolNonce r b 2 args.From "pending" with
      | ok nonce => simp [h1, h2]
      | error e2 => simp [h1, h2]

/-- C23: in the RPC sequence strategy (parallel-swap and auto-nonce both disabled)
`GetSeq` queries the pending sequence at most 3 times and stops at the first
successful query; it returns an error and no sequence if and only if all 3
queries fail, and the error is that of the last query; on success it returns
`AdjustNonce` applied to the value of the first successful query.  When
parallel-swap mode is enabled it makes no pending-sequence query and returns
the result of `AllocateNonce`, whether auto-nonce mode is enabled or not. -/
theorem GetSeq_spec (p : params.Settings) (r : router.Lookups) (b : Bridge)
    (args : BuildTxArgs) :
    (p.IsParallelSwapEnabled = false →
      p.IsAutoSwapNonceEnabled b.ChainConfig.ChainID = false →
      ((GetSeq p r b args).2.2.filter fun call => call ≠ .AdjustNonce).length ≤ 3 ∧
      (∀ nonce, GetPoolNonce r b 0 args.From "pending" = .ok nonce →
        GetSeq p r b args =
          (some (b.AdjustNonce args.From nonce), none, [.GetPoolNonce 0, .AdjustNonce])) ∧
      (∀ e0 nonce, GetPoolNonce r b 0 args.From "pending" = .error e0 →
        GetPoolNonce r b 1 args.From "pending" = .ok nonce →
        GetSeq p r b args =
          (some (b.AdjustNonce args.From nonce), none,
            [.GetPoolNonce 0, .GetPoolNonce 1, .AdjustNonce])) ∧
      (∀ e0 e1 nonce, GetPoolNonce r b 0 args.From "pending" = .error e0 →
        GetPoolNonce r b 1 args.From "pending" = .error e1 →
        GetPoolNonce r b 2 args.From "pending" = .ok nonce →
        GetSeq p r b args =
          (some (b.AdjustNonce args.From nonce), none,
            [.GetPoolNonce 0, .GetPoolNonce 1, .GetPoolNonce 2, .AdjustNonce])) ∧
      (∀ e0 e1 e2, GetPoolNonce r b 0 args.From "pending" = .error e0 →
        GetPoolNonce r b 1 args.From "pending" = .error e1 →
        GetPoolNonce r b 2 args.From "pending" = .error e2 →
        GetSeq p r b args =
          (none, some e2, [.GetPoolNonce 0, .GetPoolNonce 1, .GetPoolNonce 2])) ∧
      ((GetSeq p r b args).2.1 ≠ none ↔
        ∀ i, i < 3 → ∃ err, GetPoolNonce r b i args.From "pending" = .error err) ∧
      ((GetSeq p r b args).2.1 ≠ none ↔ (GetSeq p r b args).1 = none)) ∧
    (p.IsParallelSwapEnabled = true →
      GetSeq p r b args =
        (some (b.AllocateNonce args).1, (b.AllocateNonce args).2, [.AllocateNonce])) := by
  constructor
  · intro hp ha
    have hrpc := GetSeq_rpc p r b args hp ha
    refine ⟨?_, ?_, ?_, ?_, ?_, ?_, ?_⟩
    · rw [hrpc]
      cases h0 : GetPoolNonce r b 0 args.From "pending" with
      | ok nonce => simp [List.filter]
      | error e0 =>
        cases h1 : GetPoolNonce r b 1 args.From "pending" with
        | ok nonce => simp [List.filter]
        | error e1 =>
          cases h2 : GetPoolNonce r b 2 args.From "pending" with
          | ok nonce => simp [List.filter]
          | error e2 => simp [List.filter]
    · intro nonce h0
      rw [hrpc, h0]
    · intro e0 nonce h0 h1
      rw [hrpc, h0]
      simp only [h1]
    · intro e0 e1 nonce h0 h1 h2
      rw [hrpc, h0]
      simp only [h1, h2]
    · intro e0 e1 e2 h0 h1 h2
      rw [hrpc, h0]
      simp only [h1, h2]
    · rw [hrpc]
      cases h0 : GetPoolNonce r b 0 args.From "pending" with
      | ok nonce =>
        simp only [ne_eq, not_true_eq_false, false_iff, not_forall]
        exact ⟨0, by decide, by simp [h0]⟩
      | error e0 =>
        cases h1 : GetPoolNonce r b 1 args.From "pending" with
        | ok nonce =>
          simp only [ne_eq, not_true_eq_false, false_iff, not_forall]
          exact ⟨1, by decide, by simp [h1]⟩
        | error e1 =>
          cases h2 : GetPoolNonce r b 2 args.From "pending" with
          | ok nonce =>
            simp only [ne_eq, not_true_eq_false, false_iff, not_forall]
            exact ⟨2, by decide, by simp [h2]⟩
          | error e2 =>
            simp only [ne_eq, reduceCtorEq, not_false_eq_true, true_iff]
            intro i hi
            rcases i with _ | _ | _ | i
            · exact ⟨e0, h0⟩
            · exact ⟨e1, h1⟩
            · exact ⟨e2, h2⟩
            · omega
    · rw [hrpc]
      cases h0 : GetPoolNonce r b 0 args.From "pending" with
      | ok nonce => simp
      | error e0 =>
        cases h1 : GetPoolNonce r b 1 args.From "pending" with
        | ok nonce => simp
        | error e1 =>
          cases h2 : GetPoolNonce r b 2 args.From "pending" with
          | ok nonce => simp
          | error e2 => simp
  · intro hp
    simp [GetSeq, hp]

/-- C23 at the sample lookups and a bridge whose first pending-sequence query fails and
whose later ones answer 7: in the RPC strategy `GetSeq` makes two queries and
returns the adjusted 7; with parallel-swap and auto-nonce both enabled it
makes the one call `AllocateNonce`. -/
theorem GetSeq_spec_witness :
    GetSeq
      { IsTestMode := false, IsParallelSwapEnabled := false,
        IsAutoSwapNonceEnabled := fun _ => false }
      sample.lookups
      { sample.nearBridge [] with
        GetAccountNonce := fun query _ _ => if query = 0 then .error (.rpc "timeout") else .ok 7 }
      { From := "mpc.near" } =
      (some 7, none, [.GetPoolNonce 0, .GetPoolNonce 1, .AdjustNonce]) ∧
    GetSeq
      { IsTestMode := false, IsParallelSwapEnabled := true,
        IsAutoSwapNonceEnabled := fun _ => true }
      sample.lookups
      { sample.nearBridge [] with
        GetAccountNonce := fun query _ _ => if query = 0 then .error (.rpc "timeout") else .ok 7 }
      { From := "mpc.near" } =
      (some 0, none, [.AllocateNonce]) :=
  ⟨((GetSeq_spec
      { IsTestMode := false, IsParallelSwapEnabled := false,
        IsAutoSwapNonceEnabled := fun _ => false }
      sample.lookups
      { sample.nearBridge [] with
        GetAccountNonce := fun query _ _ => if query = 0 then .error (.rpc "timeout") else .ok 7 }
      { From := "mpc.near" }).1 rfl rfl).2.2.1 (.rpc "timeout") 7 rfl rfl,
   (GetSeq_spec
      { IsTestMode := false, IsParallelSwapEnabled := true,
        IsAutoSwapNonceEnabled := fun _ => true }
      sample.lookups
      { sample.nearBridge [] with
        GetAccountNonce := fun query _ _ => if query = 0 then .error (.rpc "timeout") else .ok 7 }
      { From := "mpc.near" }).2 rfl⟩

/-! ## The extras -/

theorem GetSeq_sequence_of_no_error (p : params.Settings) (r : router.Lookups) (b : Bridge)
    (args : BuildTxArgs) (h : (GetSeq p r b args).2.1 = none) :
    ∃ seq, (GetSeq p r b args).1 = some seq := by
  by_cases hp : p.IsParallelSwapEnabled = true
  · refine ⟨(b.AllocateNonce args).1, ?_⟩
    simp [GetSeq, hp]
  · by_cases ha : p.IsAutoSwapNonceEnabled b.ChainConfig.ChainID = true
    · refine ⟨b.GetSwapNonce args.From, ?_⟩
      simp [GetSeq, hp, ha]
    · have hp' : p.IsParallelSwapEnabled = false := by simpa using hp
      have ha' : p.IsAutoSwapNonceEnabled b.ChainConfig.ChainID = false := by simpa using ha
      rw [GetSeq_rpc p r b args hp' ha'] at h ⊢
      cases h0 : GetPoolNonce r b 0 args.From "pending" with
      | ok nonce => exact ⟨_, rfl⟩
      | error e0 =>
        cases h1 : GetPoolNonce r b 1 args.From "pending" with
        | ok nonce => exact ⟨_, rfl⟩
        | error e1 =>
          cases h2 : GetPoolNonce r b 2 args.From "pending" with
          | ok nonce => exact ⟨_, rfl⟩
          | error e2 => simp [h0, h1, h2] at h

theorem initExtra_success (p : params.Settings) (r : router.Lookups) (b : Bridge)
    (args args' : BuildTxArgs) (extra : AllExtras) (calls : List Call)
    (h : initExtra p r b args = (args', some extra, none, calls)) :
    args'.Extra = some extra ∧
    ∃ seq gas blockHash, extra.Sequence = some seq ∧ extra.Gas = some gas ∧
      extra.BlockHash = some blockHash ∧
      gas = (match args.Extra.bind (·.Gas) with | some g => g | none => defaultGasLimit) := by
  have key := GetSeq_sequence_of_no_error p r b
  rcases hE : args.Extra with _ | ⟨seq0, gas0, hash0⟩
  · simp only [initExtra, hE] at h
    generalize hG : GetSeq p r b _ = g at h
    obtain ⟨X, hX⟩ : ∃ X, GetSeq p r b X = g := ⟨_, hG⟩
    have hk := key X
    rw [hX] at hk
    obtain ⟨s, e, c⟩ := g
    cases e with
    | some e => simp at h
    | none =>
      obtain ⟨seq, hseq⟩ := hk rfl
      simp only at hseq
      subst hseq
      cases hH : b.GetLatestBlockHash with
      | error err => simp [hH] at h
      | ok blockHash =>
        simp [hH] at h
        obtain ⟨rfl, rfl, rfl⟩ := h
        simp
  · rcases seq0 with _ | seq0
    · simp only [initExtra, hE] at h
      generalize hG : GetSeq p r b _ = g at h
      obtain ⟨X, hX⟩ : ∃ X, GetSeq p r b X = g := ⟨_, hG⟩
      have hk := key X
      rw [hX] at hk
      obtain ⟨s, e, c⟩ := g
      cases e with
      | some e => simp at h
      | none =>
        obtain ⟨seq, hseq⟩ := hk rfl
        simp only at hseq
        subst hseq
        rcases gas0 with _ | gas0 <;> rcases hash0 with _ | hash0 <;>
          cases hH : b.GetLatestBlockHash <;> simp [hH] at h <;>
          (obtain ⟨rfl, rfl, rfl⟩ := h; simp)
    · rcases gas0 with _ | gas0 <;> rcases hash0 with _ | hash0 <;>
        cases hH : b.GetLatestBlockHash <;> simp [initExtra, hE, hH] at h <;>
        (obtain ⟨rfl, rfl, rfl⟩ := h; simp)

theorem initExtra_request (p : params.Settings) (r : router.Lookups) (b : Bridge)
    (args : BuildTxArgs) :
    (initExtra p r b args).1.ERC20SwapInfo = args.ERC20SwapInfo ∧
    (initExtra p r b args).1.From = args.From ∧
    (initExtra p r b args).1.SwapID = args.SwapID ∧
    (initExtra p r b args).1.LogIndex = args.LogIndex ∧
    (initExtra p r b args).1.FromChainID = args.FromChainID := by
  simp only [initExtra]
  generalize GetSeq p r b _ = g
  obtain ⟨s, e, c⟩ := g
  rcases hE : args.Extra with _ | ⟨seq0, gas0, hash0⟩
  · rcases e with _ | e <;> cases hH : b.GetLatestBlockHash <;> simp [hH]
  · rcases seq0 with _ | seq0 <;> rcases e with _ | e <;> rcases gas0 with _ | gas0 <;>
      rcases hash0 with _ | hash0 <;> cases hH : b.GetLatestBlockHash <;> simp [hH]

theorem BuildRawTransaction_success (lib : Libraries) (p : params.Settings) (r : router.Lookups)
    (b : Bridge) (args args' : BuildTxArgs) (tx : RawTransaction)
    (h : BuildRawTransaction lib p r b args = (args', some (.ok tx))) :
    ∃ nearPubKey receiver amount extra calls sequence gas blockHash blockHashBytes actions,
      initExtra p r b { args with SwapValue := amount } = (args', some extra, none, calls) ∧
      extra.Sequence = some sequence ∧ extra.Gas = some gas ∧
      extra.BlockHash = some blockHash ∧
      lib.base58Decode blockHash = .ok blockHashBytes ∧
      (if args'.ERC20SwapInfo.ForNative = true then
        createFunctionCall lib args'.SwapID swapinNativeMethod
          (r.GetCachedMultichainToken args.ERC20SwapInfo.TokenID (toString args.ToChainID))
          receiver (bigString amount) (toString args'.FromChainID) args'.LogIndex gas
      else
        createFunctionCall lib args'.SwapID swapinMethod
          (r.GetCachedMultichainToken args.ERC20SwapInfo.TokenID (toString args.ToChainID))
          receiver (bigString amount) (toString args'.FromChainID) args'.LogIndex gas) =
        some actions ∧
      tx = CreateTransaction args'.From nearPubKey
        (b.GetRouterContract
          (r.GetCachedMultichainToken args.ERC20SwapInfo.TokenID (toString args.ToChainID)))
        sequence blockHashBytes actions := by
  simp only [BuildRawTransaction] at h
  repeat' (split at h)
  all_goals try (simp at h; done)
  simp only [Prod.mk.injEq, Option.some.injEq, Except.ok.injEq] at h
  obtain ⟨hargs, htx⟩ := h
  subst hargs
  exact ⟨_, _, _, _, _, _, _, _, _, _, by assumption, by assumption, by assumption,
    by assumption, by assumption, by assumption, htx.symm⟩

/-- C21: in a successful build the action list of the transaction has exactly one
element; it carries the discriminant 2, a zero deposit and the gas of the
resolved extras (the gas of the request when it had one, the default
otherwise), and its method name is `swap_in_native` if and only if the
request has the `ForNative` flag set, and `any_swap_in` if and only if it has
not. -/
theorem BuildRawTransaction_action (lib : Libraries) (p : params.Settings) (r : router.Lookups)
    (b : Bridge) (args : BuildTxArgs) (tx : RawTransaction)
    (h : (BuildRawTransaction lib p r b args).2 = some (.ok tx)) :
    ∃ action extra gas,
      tx.Actions = [action] ∧ action.Enum = 2 ∧ action.FunctionCall.Deposit = 0 ∧
      (BuildRawTransaction lib p r b args).1.Extra = some extra ∧ extra.Gas = some gas ∧
      gas = (match args.Extra.bind (·.Gas) with | some g => g | none => defaultGasLimit) ∧
      action.FunctionCall.Gas = gas ∧
      (action.FunctionCall.MethodName = "swap_in_native" ↔
        args.ERC20SwapInfo.ForNative = true) ∧
      (action.FunctionCall.MethodName = "any_swap_in" ↔
        args.ERC20SwapInfo.ForNative = false) := by
  rcases hB : BuildRawTransaction lib p r b args with ⟨args', res⟩
  rw [hB] at h
  simp only at h
  subst h
  obtain ⟨nearPubKey, receiver, amount, extra, calls, sequence, gas, blockHash, blockHashBytes,
    actions, hinit, hseq, hgas, hhash, hdec, hact, htx⟩ :=
    BuildRawTransaction_success lib p r b args args' tx hB
  obtain ⟨hextra, seq1, gas1, hash1, _, hgas1, _, hgasv⟩ :=
    initExtra_success p r b _ args' extra calls hinit
  have hF := (initExtra_request p r b { args with SwapValue := amount }).1
  rw [hinit] at hF
  simp only at hF
  rw [hgas] at hgas1
  cases hgas1
  rw [hF] at hact
  by_cases hN : args.ERC20SwapInfo.ForNative = true
  · simp [hN, createFunctionCall, swapinMethod, swapinNativeMethod, buildSwapInNativeArgs]
      at hact
    subst hact
    refine ⟨_, extra, gas, by rw [htx]; rfl, rfl, rfl, hextra, hgas, hgasv, rfl, ?_, ?_⟩
    · simp [hN]
    · simp [hN]
  · simp [hN, createFunctionCall, swapinMethod, buildAnySwapInArgs] at hact
    subst hact
    refine ⟨_, extra, gas, by rw [htx]; rfl, rfl, rfl, hextra, hgas, hgasv, rfl, ?_, ?_⟩
    · simp [hN]
    · simp [hN]

/-- C21 at a native swap-in request to the sample bridge: the build succeeds and the
one action of the transaction calls `swap_in_native` with the default gas. -/
theorem BuildRawTransaction_action_witness :
    (BuildRawTransaction sample.lib
      { IsTestMode := false, IsParallelSwapEnabled := false,
        IsAutoSwapNonceEnabled := fun _ => false }
      sample.lookups (sample.nearBridge [])
      { ERC20SwapInfo := { ForNative := true }, SwapID := "0xabc", FromChainID := 56,
        ToChainID := 1001313161554, From := "mpc.near", Bind := "bob.near",
        OriginValue := 100 }).2 =
      some (.ok (CreateTransaction "mpc.near" { KeyType := 0, Data := List.replicate 32 0 }
        "router.near" 7 (List.replicate 32 0)
        [{ Enum := 2
           FunctionCall :=
            { MethodName := "swap_in_native"
              Args := sample.joinFields ["0xabc:0", "bob.near", "100", "56"]
              Gas := 70000000000000
              Deposit := 0 } }])) ∧
    ∃ action extra gas,
      (CreateTransaction "mpc.near" { KeyType := 0, Data := List.replicate 32 0 }
        "router.near" 7 (List.replicate 32 0)
        [{ Enum := 2
           FunctionCall :=
            { MethodName := "swap_in_native"
              Args := sample.joinFields ["0xabc:0", "bob.near", "100", "56"]
              Gas := 70000000000000
              Deposit := 0 } }]).Actions = [action] ∧
      action.Enum = 2 ∧ action.FunctionCall.Deposit = 0 ∧
      (BuildRawTransaction sample.lib
        { IsTestMode := false, IsParallelSwapEnabled := false,
          IsAutoSwapNonceEnabled := fun _ => false }
        sample.lookups (sample.nearBridge [])
        { ERC20SwapInfo := { ForNative := true }, SwapID := "0xabc", FromChainID := 56,
          ToChainID := 1001313161554, From := "mpc.near", Bind := "bob.near",
          OriginValue := 100 }).1.Extra = some extra ∧
      extra.Gas = some gas ∧
      gas = 70000000000000 ∧
      action.FunctionCall.Gas = gas ∧
      (action.FunctionCall.MethodName = "swap_in_native" ↔ true = true) ∧
      (action.FunctionCall.MethodName = "any_swap_in" ↔ true = false) :=
  ⟨by decide,
   BuildRawTransaction_action sample.lib
    { IsTestMode := false, IsParallelSwapEnabled := false,
      IsAutoSwapNonceEnabled := fun _ => false }
    sample.lookups (sample.nearBridge [])
    { ERC20SwapInfo := { ForNative := true }, SwapID := "0xabc", FromChainID := 56,
      ToChainID := 1001313161554, From := "mpc.near", Bind := "bob.near",
      OriginValue := 100 }
    (CreateTransaction "mpc.near" { KeyType := 0, Data := List.replicate 32 0 }
      "router.near" 7 (List.replicate 32 0)
      [{ Enum := 2
         FunctionCall :=
          { MethodName := "swap_in_native"
            Args := sample.joinFields ["0xabc:0", "bob.near", "100", "56"]
            Gas := 70000000000000
            Deposit := 0 } }])
    (by decide)⟩

/-! ## The block hash of the transaction -/

theorem copyArray_length (n : Nat) (src : List Byte) : (copyArray n src).length = n := by
  simp only [copyArray, List.length_append, List.length_take, List.length_replicate]
  omega

theorem CreateTransaction_of_length (signerID : String) (publicKey : PublicKey)
    (receiverID : String) (nonce : Nat) (blockHash : List Byte) (actions : List Action)
    (h : blockHash.length = 32) :
    CreateTransaction signerID publicKey receiverID nonce blockHash actions =
      { SignerID := signerID, PublicKey := publicKey, ReceiverID := receiverID, Nonce := nonce,
        BlockHash := blockHash, Actions := actions } := by
  have h1 : List.take 32 blockHash = blockHash := List.take_of_length_le (le_of_eq h)
  simp [CreateTransaction, copyArray, h1, h]

theorem CreateTransaction_BlockHash (signerID : String) (publicKey : PublicKey)
    (receiverID : String) (nonce : Nat) (blockHash : List Byte) (actions : List Action) :
    (CreateTransaction signerID publicKey receiverID nonce blockHash actions).BlockHash.length =
      32 ∧
    (blockHash.length ≤ 32 →
      (CreateTransaction signerID publicKey receiverID nonce blockHash actions).BlockHash =
        blockHash ++ List.replicate (32 - blockHash.length) 0) ∧
    (32 ≤ blockHash.length →
      (CreateTransaction signerID publicKey receiverID nonce blockHash actions).BlockHash =
        blockHash.take 32) := by
  refine ⟨copyArray_length 32 blockHash, fun h => ?_, fun h => ?_⟩
  · simp [CreateTransaction, copyArray, List.take_of_length_le h]
  · simp [CreateTransaction, copyArray, Nat.sub_eq_zero_of_le h]

/-- C24 fails in the code: with a block hash `2g` on the request, which decodes to the
single byte 97, `BuildRawTransaction` returns no error but a transaction whose
block hash is that byte followed by 31 zero bytes; and `CreateTransaction`
given 33 bytes returns a transaction with the first 32 of them.  Neither
`BuildRawTransaction` nor `CreateTransaction` compares the length with 32. -/
theorem BuildRawTransaction_block_hash_length_unchecked :
    (BuildRawTransaction
      { sample.lib with
        base58Decode := fun s => if s = "2g" then .ok [97] else .ok (List.replicate 32 0) }
      { IsTestMode := false, IsParallelSwapEnabled := false,
        IsAutoSwapNonceEnabled := fun _ => false }
      sample.lookups (sample.nearBridge [])
      { SwapID := "0xabc", FromChainID := 56, ToChainID := 1001313161554, From := "mpc.near",
        Bind := "bob.near", OriginValue := 100,
        Extra := some { BlockHash := some "2g" } }).2 =
      some (.ok
        { SignerID := "mpc.near"
          PublicKey := { KeyType := 0, Data := List.replicate 32 0 }
          ReceiverID := "router.near"
          Nonce := 7
          BlockHash := 97 :: List.replicate 31 0
          Actions :=
            [{ Enum := 2
               FunctionCall :=
                { MethodName := "any_swap_in"
                  Args := sample.joinFields ["0xabc:0", "0xusdt", "bob.near", "100", "56"]
                  Gas := 70000000000000
                  Deposit := 0 } }] }) ∧
    ([97] : List Byte).length ≠ 32 ∧
    (CreateTransaction "mpc.near" { KeyType := 0, Data := List.replicate 32 0 } "router.near" 7
      (List.range 33) []).BlockHash = List.range 32 := by
  decide

end near
